import Mathlib

/-!
# ArduinoKernel: task ring, message bus, timer and application modules

A shallow embedding of `kernel/taskring.cpp` (the cooperative task scheduler),
of the message bus and the software timer the template modules call, and of
the control and display modules of the template files, followed by the
properties proved about them.

Pointers are natural numbers, `NULL` is `0`.  The free store holding the
`TASKSTATE` objects is a list: the object at address `p ≥ 1` is the cell with
index `p - 1`.  Function pointers (`PFNTASKHANDLER`) and `void *` contexts are
natural numbers as well; what a handler does when it is called is a parameter
of `Loop`.  The arithmetic of the application modules is that of the 16-bit
`int` and `unsigned int` of the AVR target.
-/

namespace Kernel

/-- The null pointer.  Pointers (to objects, to functions, and `void *`
values) are natural numbers. -/
abbrev NULL : Nat := 0

/-- Task state structure (`class TASKSTATE`, taskring.cpp 21-27). -/
structure TASKSTATE where
  handler : Nat
  context : Nat
  pNext : Nat
deriving DecidableEq, Repr

/-- Task internal structure (`class TASKINTERNALS`, taskring.cpp 32-37). -/
structure TASKINTERNALS where
  pHead : Nat
  pCur : Nat
deriving DecidableEq, Repr

/-- A `TaskRing` object: its `internals` together with the part of the free
store that holds the `TASKSTATE` objects allocated so far. -/
structure TaskRing where
  store : List TASKSTATE
  internals : TASKINTERNALS
deriving DecidableEq, Repr

/-- The constructor `TaskRing::TaskRing` (taskring.cpp 54-57): fresh internals
(`new TASKINTERNALS`, taken to have succeeded) with `pHead(NULL), pCur(NULL)`;
no `TASKSTATE` has been allocated yet. -/
def TaskRing.fresh : TaskRing :=
  { store := [], internals := { pHead := NULL, pCur := NULL } }

/-- Reading through a pointer: `none` for the null pointer and for an address
that holds no object. -/
def deref (store : List TASKSTATE) (p : Nat) : Option TASKSTATE :=
  if p = NULL then none else store[p - 1]?

/-- The expression `new TASKSTATE(handler,context)`: when the allocator has
room (`allocOk`) the object is placed at the next address, with
`pNext(NULL)` as the constructor sets it; otherwise the result is `NULL` and
the store is untouched. -/
def newTASKSTATE (store : List TASKSTATE) (handler context : Nat) (allocOk : Bool) :
    Nat × List TASKSTATE :=
  if allocOk then
    (store.length + 1, store ++ [{ handler := handler, context := context, pNext := NULL }])
  else
    (NULL, store)

/-- The assignment `p->pNext = q` on the store. -/
def setNext (store : List TASKSTATE) (p q : Nat) : List TASKSTATE :=
  match deref store p with
  | none => store
  | some t => store.set (p - 1) { t with pNext := q }

/-- `TaskRing::RegisterTaskHandler` (taskring.cpp 118-131).  Returns `rc` and
the ring after the call. -/
def RegisterTaskHandler (tr : TaskRing) (handler context : Nat) (allocOk : Bool) :
    Int × TaskRing :=
  if handler ≠ NULL then
    let r := newTASKSTATE tr.store handler context allocOk
    if r.1 ≠ NULL then
      (0, { store := setNext r.2 r.1 tr.internals.pHead,
            internals := { tr.internals with pHead := r.1 } })
    else
      (-1, { tr with store := r.2 })
  else
    (-1, tr)

/-- The whole program state a task handler can touch: the task ring and the
rest of the application's state. -/
structure System (σ : Type) where
  tasks : TaskRing
  app : σ

/-- What calling a task handler does: `exec handler context` is the state
transformer of the call `handler(context)`. -/
abbrev TaskSemantics (σ : Type) := Nat → Nat → System σ → System σ

/-- A handler invocation: the function called and the argument passed. -/
abbrev Call := Nat × Nat

/-- `TaskRing::Loop` (taskring.cpp 88-100).  The result is `none` when the
code reads through a pointer that holds no object or calls a null function
pointer (undefined behaviour); otherwise the state after the call and the
handler invocations made by this call, in order. -/
def Loop {σ : Type} (exec : TaskSemantics σ) (s : System σ) :
    Option (System σ × List Call) :=
  -- if(internal->pCur==NULL) internal->pCur=internal->pHead;
  let tr1 : TaskRing :=
    if s.tasks.internals.pCur = NULL then
      { s.tasks with internals := { s.tasks.internals with pCur := s.tasks.internals.pHead } }
    else s.tasks
  -- if(internal->pCur) {
  if tr1.internals.pCur ≠ NULL then
    match deref tr1.store tr1.internals.pCur with
    | none => none
    | some t =>
      if t.handler = NULL then none
      else
        -- internal->pCur->handler(internal->pCur->context);
        let s2 := exec t.handler t.context { s with tasks := tr1 }
        -- internal->pCur=internal->pCur->pNext;
        match deref s2.tasks.store s2.tasks.internals.pCur with
        | none => none
        | some t2 =>
          some ({ s2 with tasks := { s2.tasks with
                    internals := { s2.tasks.internals with pCur := t2.pNext } } },
                [(t.handler, t.context)])
  else
    some ({ s with tasks := tr1 }, [])

/-- `n` consecutive `Loop` calls; the invocations of all of them, in order. -/
def Loops {σ : Type} (exec : TaskSemantics σ) : Nat → System σ → Option (System σ × List Call)
  | 0, s => some (s, [])
  | n + 1, s =>
    match Loop exec s with
    | none => none
    | some (s1, c1) =>
      match Loops exec n s1 with
      | none => none
      | some (s2, c2) => some (s2, c1 ++ c2)

/-- The `TASKSTATE` objects reached from `p` by following `pNext`, at most
`fuel` of them. -/
def chain (store : List TASKSTATE) : Nat → Nat → List TASKSTATE
  | 0, _ => []
  | fuel + 1, p =>
    match deref store p with
    | none => []
    | some t => t :: chain store fuel t.pNext

/-- The registration list: the objects linked from `pHead`. -/
def TaskRing.list (tr : TaskRing) : List TASKSTATE :=
  chain tr.store tr.store.length tr.internals.pHead

/-- The (handler, context) pair of a registration. -/
def callOf (t : TASKSTATE) : Call := (t.handler, t.context)

/-- The registrations as (handler, context) pairs, head first. -/
def TaskRing.registrations (tr : TaskRing) : List Call :=
  tr.list.map callOf

/-- Task handlers that leave the task ring alone: the call registers nothing
and does not re-enter the scheduler. -/
def FramesRing {σ : Type} (exec : TaskSemantics σ) : Prop :=
  ∀ (h c : Nat) (s : System σ), (exec h c s).tasks = s.tasks

/-- The states a program can be in: `Reachable exec hist s` says that `s`
is reached from a fresh `TaskRing` by `RegisterTaskHandler` and `Loop` calls
(and arbitrary changes of the application state in between), and that `hist`
lists the (handler, context) pairs of the successful `RegisterTaskHandler`
calls made on the way, most recent first. -/
inductive Reachable {σ : Type} (exec : TaskSemantics σ) : List Call → System σ → Prop
  | fresh (a : σ) : Reachable exec [] { tasks := TaskRing.fresh, app := a }
  | register {hist : List Call} {s : System σ} (h c : Nat) (allocOk : Bool) :
      Reachable exec hist s →
      Reachable exec
        (if (RegisterTaskHandler s.tasks h c allocOk).1 = 0 then (h, c) :: hist else hist)
        { s with tasks := (RegisterTaskHandler s.tasks h c allocOk).2 }
  | loop {hist : List Call} {s s1 : System σ} {calls : List Call} :
      Reachable exec hist s → Loop exec s = some (s1, calls) → Reachable exec hist s1
  | app {hist : List Call} {s : System σ} (a : σ) :
      Reachable exec hist s → Reachable exec hist { s with app := a }

/-- The position `Loop` works at: the cursor, or the head when the cursor is
unset. -/
def TaskRing.effCur (tr : TaskRing) : Nat :=
  if tr.internals.pCur = NULL then tr.internals.pHead else tr.internals.pCur

/-! ## The task ring: auxiliary definitions -/

/-- The shape of every ring built by `RegisterTaskHandler`: each object links
to the one allocated just before it, the head is the newest object, the cursor
is null or an allocated object, and no stored handler is null. -/
structure Canon (tr : TaskRing) : Prop where
  next : ∀ (i : Nat) (t : TASKSTATE), tr.store[i]? = some t → t.pNext = i
  head : tr.internals.pHead = tr.store.length
  cur : tr.internals.pCur ≤ tr.store.length - 1
  handlers : ∀ t ∈ tr.store, t.handler ≠ NULL

/-- The ring `Loop` works on once the cursor has been reset to the head. -/
def TaskRing.atCur (tr : TaskRing) : TaskRing :=
  { store := tr.store, internals := { pHead := tr.internals.pHead, pCur := tr.effCur } }

/-- The ring with the cursor moved to `p`. -/
def TaskRing.withCur (tr : TaskRing) (p : Nat) : TaskRing :=
  { store := tr.store, internals := { pHead := tr.internals.pHead, pCur := p } }

/-- A sequence of `RegisterTaskHandler` calls, each given as (handler, context,
allocOk), made in list order: the return codes and the ring afterwards. -/
def registerAll (tr : TaskRing) : List (Nat × Nat × Bool) → List Int × TaskRing
  | [] => ([], tr)
  | r :: rest =>
    let r1 := RegisterTaskHandler tr r.1 r.2.1 r.2.2
    let r2 := registerAll r1.2 rest
    (r1.1 :: r2.1, r2.2)

/-- The handler semantics of tasks that do nothing at all; used to run the
definitions on concrete rings. -/
def idleTasks : TaskSemantics Unit := fun _ _ s => s

/-! ## The message bus -/

/-- Modelled from the spec: the ownership tag of a message (section 6,
CallerOwned or CalleeOwned); `Kernel::MQ_OWNER_CALLER` is used by the sources
but its declaration is not among them. -/
inductive MQOwner where
  | caller
  | callee
deriving DecidableEq, Repr

/-- Modelled from the spec: the calling-context tag of a message (section 6,
Task or Interrupt); `Kernel::MQ_CONTEXT_TASK` is used by the sources but its
declaration is not among them. -/
inductive MQContext where
  | task
  | interrupt
deriving DecidableEq, Repr

/-- Modelled from the spec: the message of section 3, the tuple
(messageId, payload, ownership tag, calling-context tag) that exists for the
duration of one publish call.  The message bus is not among the sources. -/
structure Message where
  messageId : Nat
  payload : Nat
  owner : MQOwner
  context : MQContext
deriving DecidableEq, Repr

/-- Modelled from the spec: the status of a `subscribe` call, success or the
`InvalidHandler` error of section 7; the bus is not among the sources. -/
inductive BusStatus where
  | success
  | invalidHandler
deriving DecidableEq, Repr

/-- Modelled from the spec: the registry of the message bus
(`Kernel::OS.MessageQueue`, whose implementation is not among the sources):
the subscriptions (messageId, handler) in the order they were made. -/
structure MessageQueue where
  subs : List (Nat × Nat)
deriving DecidableEq, Repr

/-- Modelled from the spec: the message bus before any `Subscribe` call; the
implementation of the bus is not among the sources. -/
def MessageQueue.empty : MessageQueue := { subs := [] }

/-- Modelled from the spec: `subscribe(messageId, handler) -> status` of
section 4.2, whose implementation (`MessageQueue.Subscribe`) is not among the
sources: it fails with `InvalidHandler` if the handler is absent, and
otherwise records the subscription after the earlier ones. -/
def MessageQueue.Subscribe (mq : MessageQueue) (messageId handler : Nat) :
    BusStatus × MessageQueue :=
  if handler = NULL then (BusStatus.invalidHandler, mq)
  else (BusStatus.success, { subs := mq.subs ++ [(messageId, handler)] })

/-- Modelled from the spec: the handlers subscribed to `messageId`, in
registration order (section 3, Subscription); the bus is not among the
sources. -/
def MessageQueue.subscribers (mq : MessageQueue) (messageId : Nat) : List Nat :=
  (mq.subs.filter (fun e => e.1 = messageId)).map (fun e => e.2)

/-- A delivery: the subscriber called and the message it was called with. -/
abbrev Delivery := Nat × Message

/-- Modelled from the spec: the fan-out of one publish call over the
subscribers, one after the other; `deliver h m` is what calling subscriber `h`
with message `m` does to the program state.  Returns the state after the last
subscriber and the deliveries made, in order.  The bus is not among the
sources. -/
def dispatch {ω : Type} (deliver : Nat → Message → ω → ω) (m : Message) :
    List Nat → ω → ω × List Delivery
  | [], w => (w, [])
  | h :: rest, w =>
    let r := dispatch deliver m rest (deliver h m w)
    (r.1, (h, m) :: r.2)

/-- Modelled from the spec: `publish(messageId, payload, ownershipTag,
callingContextTag)` of section 4.2, whose implementation
(`MessageQueue.Post`) is not among the sources: it synchronously invokes, in
registration order, every handler subscribed to `messageId`, passing the
payload and tags, and is a silent no-op when there is none. -/
def MessageQueue.Post {ω : Type} (deliver : Nat → Message → ω → ω) (mq : MessageQueue)
    (messageId payload : Nat) (owner : MQOwner) (context : MQContext) (w : ω) :
    ω × List Delivery :=
  dispatch deliver
    { messageId := messageId, payload := payload, owner := owner, context := context }
    (mq.subscribers messageId) w

/-- A sequence of `Subscribe` calls, each given as (messageId, handler), made
in list order: the statuses and the bus afterwards. -/
def subscribeAll (mq : MessageQueue) : List (Nat × Nat) → List BusStatus × MessageQueue
  | [] => ([], mq)
  | e :: rest =>
    let r1 := mq.Subscribe e.1 e.2
    let r2 := subscribeAll r1.2 rest
    (r1.1 :: r2.1, r2.2)

/-! ## The end-to-end scenario: a posting task and a subscribed module -/

/-- Modelled from the spec: the application state of the end-to-end scenario
of section 8, which is no code of the repository: the message bus and the
record module B keeps of the payloads its message handler has seen, oldest
first. -/
structure BusWorld where
  mq : MessageQueue
  seen : List Nat
deriving DecidableEq, Repr

/-- Modelled from the spec: module B of the scenario of section 8 (no code of
the repository); its message handler `msgB` records the payload it is called
with, and no other subscriber touches B's record. -/
def scenarioDeliver (msgB : Nat) : Nat → Message → BusWorld → BusWorld :=
  fun h m w => if h = msgB then { w with seen := w.seen ++ [m.payload] } else w

/-- Modelled from the spec: the tasks of the scenario of section 8 (no code
of the repository): task `taskA` posts message `X` with payload 1 (the way
`ControlTask` posts its messages, with `MQ_OWNER_CALLER` and
`MQ_CONTEXT_TASK`); every other task does nothing. -/
def scenarioTasks (taskA msgB X : Nat) : TaskSemantics BusWorld :=
  fun h _ s =>
    if h = taskA then
      { s with app := (s.app.mq.Post (scenarioDeliver msgB) X 1 MQOwner.caller
                        MQContext.task s.app).1 }
    else s

/-- Modelled from the spec: the scenario of section 8 after initialisation
(no code of the repository): module B has subscribed `msgB` to message `X`,
and the two tasks have been registered with `RegisterTaskHandler`, `taskA`
first when `aFirst` holds and `taskB` first otherwise. -/
def scenarioStart (taskA taskB msgB X ctxA ctxB : Nat) (aFirst : Bool) : System BusWorld :=
  { tasks := (registerAll TaskRing.fresh
      (if aFirst then [(taskA, ctxA, true), (taskB, ctxB, true)]
       else [(taskB, ctxB, true), (taskA, ctxA, true)])).2,
    app := { mq := (MessageQueue.empty.Subscribe X msgB).2, seen := [] } }

/-- The addresses of the `TASKSTATE` objects reached from `p` by following
`pNext`, at most `fuel` of them. -/
def chainPtrs (store : List TASKSTATE) : Nat → Nat → List Nat
  | 0, _ => []
  | fuel + 1, p =>
    match deref store p with
    | none => []
    | some t => p :: chainPtrs store fuel t.pNext

/-- The addresses of the registrations in the list, head first. -/
def TaskRing.listPtrs (tr : TaskRing) : List Nat :=
  chainPtrs tr.store tr.store.length tr.internals.pHead

/-- The registrations left in the current cycle: the objects linked from the
cursor (none when the cursor is unset). -/
def TaskRing.remaining (tr : TaskRing) : List TASKSTATE :=
  chain tr.store tr.store.length tr.internals.pCur

/-- A concrete ring in the middle of a cycle: (5, 6) then (7, 8) have been
registered and one `Loop` call has run, so the cursor stands on the older
registration. -/
def midCycleExample : System Unit :=
  { tasks := { store := [{ handler := 5, context := 6, pNext := 0 },
                         { handler := 7, context := 8, pNext := 1 }],
               internals := { pHead := 2, pCur := 1 } },
    app := () }

/-! ## The software timer -/

/-- Modelled from the spec: the polling timer `Kernel::OSTimer` of section 4.3,
whose implementation is not among the sources (only its uses are).  Time is
the reading of the monotonic millisecond time source; the timer keeps the
duration it was armed with and the deadline. -/
structure OSTimer where
  duration : Nat
  deadline : Nat
deriving DecidableEq, Repr

/-- Modelled from the spec: `new(durationMillis)` of section 4.3 (the
constructor `OSTimer(d)`, not among the sources): an armed timer whose
deadline is `durationMillis` in the future of the current time `now`. -/
def OSTimer.new (now durationMillis : Nat) : OSTimer :=
  { duration := durationMillis, deadline := now + durationMillis }

/-- Modelled from the spec: `set(durationMillis)` of section 4.3 (`OSTimer::Set`,
not among the sources): re-arms the timer relative to the current time `now`,
overwriting any previous deadline. -/
def OSTimer.Set (_t : OSTimer) (now durationMillis : Nat) : OSTimer :=
  { duration := durationMillis, deadline := now + durationMillis }

/-- Modelled from the spec: `isExpired()` of section 4.3 (`OSTimer::isExpired`,
not among the sources): true once the current time `now` has reached or
passed the deadline; the timer itself is not changed by the query. -/
def OSTimer.isExpired (t : OSTimer) (now : Nat) : Bool :=
  decide (t.deadline ≤ now)

/-! ## Machine integers of the target

The target is the 8-bit AVR microcontroller of the Arduino (ATmega328):
`int`, `unsigned int` and pointers are 16 bits wide (control.cpp notes that a
pointer is a 16 bit integer). -/

/-- The value of an `unsigned int` (or of a pointer) holding `n`: reduction
modulo 2^16. -/
def toUnsigned (n : Nat) : Nat := n % 65536

/-- The value of an `int` after arithmetic that produced `i`: wrapped into
-32768..32767. -/
def toInt (i : Int) : Int := (i + 32768) % 65536 - 32768

/-- The pointer `(void *)i` made from an `int`: its 16-bit pattern. -/
def ptrOfInt (i : Int) : Nat := (i % 65536).toNat

/-- A message as `ControlTask` and the message handlers post it:
`Post(id, payload, Kernel::MQ_OWNER_CALLER, Kernel::MQ_CONTEXT_TASK)`. -/
def taskPost (messageId payload : Nat) : Message :=
  { messageId := messageId, payload := payload, owner := MQOwner.caller,
    context := MQContext.task }

/-- The payloads of the messages with identifier `messageId` among the
messages posted, in posting order. -/
def payloadsOf (messageId : Nat) (posts : List Message) : List Nat :=
  (posts.filter (fun m => m.messageId = messageId)).map (fun m => m.payload)

/-- A task or handler called once for each input of a list, in order, starting
in state `s`: the final state and everything posted, in order. -/
def runCalls {ι S : Type} (step : ι → S → S × List Message) : List ι → S → S × List Message
  | [], s => (s, [])
  | i :: rest, s =>
    let r1 := step i s
    let r2 := runCalls step rest r1.1
    (r2.1, r1.2 ++ r2.2)

/-! ## The control module, part 1 (SevenSeg/control.cpp) -/

/-- Message identifier `MSG_ID_CHANGE_LED` of common.h, line 14. -/
def Part1.MSG_ID_CHANGE_LED : Nat := 0

/-- Message identifier `MSG_ID_CHANGE_7SEG` of common.h, line 15. -/
def Part1.MSG_ID_CHANGE_7SEG : Nat := 1

/-- The state `ControlTask` works on: the `TIMERSTRUCT` its context points to
and its static variables `ledstate` (an `int`) and `v` (an `unsigned int`). -/
structure Part1.ControlState where
  LEDTimer : OSTimer
  SevenSegTimer : OSTimer
  ledstate : Int
  v : Nat
deriving DecidableEq, Repr

/-- `CONTROLInitialize` (control.cpp 37-69) at time `now`: the two timers are
created; the statics have their initial values. -/
def Part1.CONTROLInitialize (now : Nat) : Part1.ControlState :=
  { LEDTimer := OSTimer.new now 750, SevenSegTimer := OSTimer.new now 300,
    ledstate := 0, v := 0 }

/-- `ControlTask` of part 1 (control.cpp 82-179), called when the clock reads
`now`: the state afterwards and the messages posted, in order. -/
def Part1.ControlTask (now : Nat) (s : Part1.ControlState) :
    Part1.ControlState × List Message :=
  -- if(timers->LEDTimer->isExpired()) {
  let r1 : Part1.ControlState × List Message :=
    if s.LEDTimer.isExpired now then
      -- ledstate=(ledstate==1)?0:1;
      let ledstate : Int := if s.ledstate = 1 then 0 else 1
      -- Post(MSG_ID_CHANGE_LED, (void *)ledstate, ...); timers->LEDTimer->Set(750);
      ({ s with ledstate := ledstate, LEDTimer := s.LEDTimer.Set now 750 },
       [taskPost Part1.MSG_ID_CHANGE_LED (ptrOfInt ledstate)])
    else (s, [])
  -- if(timers->SevenSegTimer->isExpired()) {
  if r1.1.SevenSegTimer.isExpired now then
    -- Post(MSG_ID_CHANGE_7SEG, (void *)v, ...);
    let post := taskPost Part1.MSG_ID_CHANGE_7SEG r1.1.v
    -- if(++v > 0x1b) { v=0x00; }
    let v1 := toUnsigned (r1.1.v + 1)
    let v2 := if v1 > 0x1b then 0 else v1
    -- timers->SevenSegTimer->Set(300);
    ({ r1.1 with v := v2, SevenSegTimer := r1.1.SevenSegTimer.Set now 300 }, r1.2 ++ [post])
  else r1

/-! ## The control module, part 3 (part3_template_files/control.cpp) -/

/-- The definitions `ControlTask` and `CTRLNewRPM` of part 3 take from the
part's common.h, which is not among the sources: the message identifiers and
the bound `RPM_MAX`.  They are parameters of the functions below. -/
structure Part3.Common where
  MSG_ID_CHANGE_LED : Nat
  MSG_ID_NEW_ACTUAL_RPM : Nat
  MSG_ID_NEW_DEMAND_RPM : Nat
  RPM_MAX : Nat
deriving DecidableEq, Repr

/-- The state of the control module of part 3: the timers of the
`TIMERSTRUCT`, the statics `ledstate` (`int`) and `actualrpm`
(`unsigned int`) of `ControlTask`, and the module global `demandrpm`
(`int`). -/
structure Part3.ControlState where
  LEDTimer : OSTimer
  TestRPMTimer : OSTimer
  ledstate : Int
  actualrpm : Nat
  demandrpm : Int
deriving DecidableEq, Repr

/-- `CONTROLInitialize` of part 3 (control.cpp 44-80) at time `now`, as far as
the module's own state goes. -/
def Part3.CONTROLInitialize (now : Nat) : Part3.ControlState :=
  { LEDTimer := OSTimer.new now 750, TestRPMTimer := OSTimer.new now 1000,
    ledstate := 0, actualrpm := 0, demandrpm := 0 }

/-- `ControlTask` of part 3 (control.cpp 93-153), called when the clock reads
`now`. -/
def Part3.ControlTask (k : Part3.Common) (now : Nat) (s : Part3.ControlState) :
    Part3.ControlState × List Message :=
  -- if(timers->LEDTimer->isExpired()) {
  let r1 : Part3.ControlState × List Message :=
    if s.LEDTimer.isExpired now then
      -- ledstate=(ledstate==1)?0:1;
      let ledstate : Int := if s.ledstate = 1 then 0 else 1
      ({ s with ledstate := ledstate, LEDTimer := s.LEDTimer.Set now 750 },
       [taskPost k.MSG_ID_CHANGE_LED (ptrOfInt ledstate)])
    else (s, [])
  -- if(timers->TestRPMTimer->isExpired()) {
  if r1.1.TestRPMTimer.isExpired now then
    -- actualrpm=(++actualrpm)>RPM_MAX?0:actualrpm;
    let inc := toUnsigned (r1.1.actualrpm + 1)
    let actualrpm := if inc > k.RPM_MAX then 0 else inc
    -- Post(MSG_ID_NEW_ACTUAL_RPM, (void *)actualrpm, ...); timers->TestRPMTimer->Set(1000);
    ({ r1.1 with actualrpm := actualrpm, TestRPMTimer := r1.1.TestRPMTimer.Set now 1000 },
     r1.2 ++ [taskPost k.MSG_ID_NEW_ACTUAL_RPM actualrpm])
  else r1

/-- `CTRLNewRPM` (part 3, control.cpp 170-179), called with `context`. -/
def Part3.CTRLNewRPM (k : Part3.Common) (context : Nat) (s : Part3.ControlState) :
    Part3.ControlState × List Message :=
  -- demandrpm=(unsigned int)context;
  let demandrpm : Int := toInt (toUnsigned context)
  -- Post(MSG_ID_NEW_DEMAND_RPM, (void *)demandrpm, ...);
  ({ s with demandrpm := demandrpm }, [taskPost k.MSG_ID_NEW_DEMAND_RPM (ptrOfInt demandrpm)])

/-! ## The control module, part 4 (part4_template_files/control.cpp) -/

/-- The definitions the control module of part 4 takes from the part's
common.h, which is not among the sources: the message identifiers and the
bounds `RPS_MIN`, `RPS_MAX`.  They are parameters of the functions below. -/
structure Part4.Common where
  MSG_ID_CHANGE_LED : Nat
  MSG_ID_NEW_ACTUAL_RPS : Nat
  MSG_ID_NEW_DEMAND_RPS : Nat
  RPS_MIN : Int
  RPS_MAX : Int
deriving DecidableEq, Repr

/-- The state of the control module of part 4: the timers, the statics
`ledstate` and `actualrps` (both `int`) of `ControlTask`, and the module
global `demandrps` (`int`). -/
structure Part4.ControlState where
  LEDTimer : OSTimer
  TestRPSTimer : OSTimer
  ledstate : Int
  actualrps : Int
  demandrps : Int
deriving DecidableEq, Repr

/-- `CONTROLInitialize` of part 4 (control.cpp 43-83) at time `now`, as far as
the module's own state goes; `demandrps` starts at `RPS_MIN` (line 24). -/
def Part4.CONTROLInitialize (k : Part4.Common) (now : Nat) : Part4.ControlState :=
  { LEDTimer := OSTimer.new now 750, TestRPSTimer := OSTimer.new now 1000,
    ledstate := 0, actualrps := 0, demandrps := toInt k.RPS_MIN }

/-- `ControlTask` of part 4 (control.cpp 96-157), called when the clock reads
`now`. -/
def Part4.ControlTask (k : Part4.Common) (now : Nat) (s : Part4.ControlState) :
    Part4.ControlState × List Message :=
  -- if(timers->LEDTimer->isExpired()) {
  let r1 : Part4.ControlState × List Message :=
    if s.LEDTimer.isExpired now then
      -- ledstate=(ledstate==1)?0:1;
      let ledstate : Int := if s.ledstate = 1 then 0 else 1
      ({ s with ledstate := ledstate, LEDTimer := s.LEDTimer.Set now 750 },
       [taskPost k.MSG_ID_CHANGE_LED (ptrOfInt ledstate)])
    else (s, [])
  -- if(timers->TestRPSTimer->isExpired()) {
  if r1.1.TestRPSTimer.isExpired now then
    -- actualrps=(++actualrps)>RPS_MAX?0:actualrps;
    let inc := toInt (r1.1.actualrps + 1)
    let actualrps : Int := if inc > k.RPS_MAX then 0 else inc
    -- Post(MSG_ID_NEW_ACTUAL_RPS, (void *)actualrps, ...); timers->TestRPSTimer->Set(1000);
    ({ r1.1 with actualrps := actualrps, TestRPSTimer := r1.1.TestRPSTimer.Set now 1000 },
     r1.2 ++ [taskPost k.MSG_ID_NEW_ACTUAL_RPS (ptrOfInt actualrps)])
  else r1

/-- `CTRLNewRPS` (part 4, control.cpp 198-208), called with `context`. -/
def Part4.CTRLNewRPS (k : Part4.Common) (context : Nat) (s : Part4.ControlState) :
    Part4.ControlState × List Message :=
  -- demandrps=(unsigned int)context;
  let demandrps : Int := toInt (toUnsigned context)
  -- Post(MSG_ID_NEW_DEMAND_RPS, (void *)demandrps, ...);
  ({ s with demandrps := demandrps }, [taskPost k.MSG_ID_NEW_DEMAND_RPS (ptrOfInt demandrps)])

/-- Concrete values for part 3's missing common.h, used to run the
definitions: three distinct message identifiers and `RPM_MAX` = 999. -/
def exampleCommon3 : Part3.Common :=
  { MSG_ID_CHANGE_LED := 0, MSG_ID_NEW_ACTUAL_RPM := 4, MSG_ID_NEW_DEMAND_RPM := 5,
    RPM_MAX := 999 }

/-- Concrete values for part 4's missing common.h, used to run the
definitions: three distinct message identifiers, `RPS_MIN` = 0 and
`RPS_MAX` = 99. -/
def exampleCommon4 : Part4.Common :=
  { MSG_ID_CHANGE_LED := 0, MSG_ID_NEW_ACTUAL_RPS := 4, MSG_ID_NEW_DEMAND_RPS := 5,
    RPS_MIN := 0, RPS_MAX := 99 }

/-- Clock readings of six successive `ControlTask` calls, used to run the
definitions. -/
def exampleTimes : List Nat := [300, 600, 750, 1000, 1500, 2250]

/-- Values for part 4's missing common.h with `RPS_MAX` at the largest value
an `int` of the target can hold, 32767. -/
def wideCommon4 : Part4.Common :=
  { MSG_ID_CHANGE_LED := 0, MSG_ID_NEW_ACTUAL_RPS := 4, MSG_ID_NEW_DEMAND_RPS := 5,
    RPS_MIN := 0, RPS_MAX := 32767 }

/-! ## The display module (part3_template_files/display.cpp) -/

/-- The states of the display state machine (`enum _DISPSTATE`,
display.cpp 19-27). -/
inductive DISPSTATE where
  | DISPSTATE_REFSH
  | DISPSTATE_IDLE
  | DISPSTATE_UPDATING
  | DISPSTATE_VALIDATE
  | DISPSTATE_ERROR
deriving DecidableEq, Repr

/-- A call made on the `LiquidCrystal_I2C` object `lcd`; `print` carries the
characters sent (ASCII codes), `printF` the text of an `F("...")` literal. -/
inductive LcdOp where
  | init
  | backlight
  | clear
  | setCursor (col row : Nat)
  | print (chars : List Nat)
  | printF (text : String)
  | blink
deriving DecidableEq, Repr

/-- The module variables of display.cpp (lines 37-49), the static `curpos` of
`DISPKeyPressed` (line 237), and the calls made on the LCD so far, oldest
first.  `numarr` is the array `char numarr[5]`. -/
structure Display where
  state : DISPSTATE
  ActualRPM : Nat
  DemandRPM : Nat
  EnteredRPM : Nat
  numarr : List Nat
  curpos : Nat
  lcd : List LcdOp
deriving DecidableEq, Repr

/-- The module variables as the program starts: the initialisers of
display.cpp 37-49 and 237; `numarr`, having static storage, is zeroed. -/
def Display.initial : Display :=
  { state := DISPSTATE.DISPSTATE_REFSH, ActualRPM := 0, DemandRPM := 0, EnteredRPM := 0,
    numarr := [0, 0, 0, 0, 0], curpos := 9, lcd := [] }

/-- `DISPInitialize` (display.cpp 70-86); the subscriptions and the task
registration are still to be written there (TODO). -/
def DISPInitialize (d : Display) : Display :=
  { d with lcd := d.lcd ++ [LcdOp.init, LcdOp.backlight, LcdOp.clear, LcdOp.setCursor 0 0,
      LcdOp.printF "Starting.."] }

/-- The decimal digits of `n` as ASCII codes, most significant first, put in
front of `acc`; `fuel` bounds the number of digits. -/
def asciiDigits : Nat → Nat → List Nat → List Nat
  | 0, _, acc => acc
  | fuel + 1, n, acc =>
    if n / 10 = 0 then (0x30 + n % 10) :: acc
    else asciiDigits fuel (n / 10) ((0x30 + n % 10) :: acc)

/-- The text `printf` produces for the conversion `%3.3d` of the `int` `i`:
at least three digits, zero padded, with a minus sign for a negative value. -/
def format3d (i : Int) : List Nat :=
  let ds := asciiDigits 5 i.natAbs []
  let padded := List.replicate (3 - ds.length) 0x30 ++ ds
  if i < 0 then 0x2d :: padded else padded

/-- `sprintf(buf, ...)` producing `text`: the text and its terminating NUL are
written at the start of `buf`; `none` when they do not fit (the write would
run past the end of the array). -/
def sprintfInto (buf : List Nat) (text : List Nat) : Option (List Nat) :=
  if text.length + 1 ≤ buf.length then
    some (text ++ [0] ++ buf.drop (text.length + 1))
  else none

/-- The characters of the C string held in `buf`: those before the first
NUL. -/
def cString (buf : List Nat) : List Nat := buf.takeWhile (fun ch => ch ≠ 0)

/-- `DISPUpdateRPM` (display.cpp 172-190), called with `context`; `none` when
`sprintf` overruns `tempstr`. -/
def DISPUpdateRPM (d : Display) (context : Nat) : Option Display :=
  -- unsigned int newrpm=(unsigned int)context;
  let newrpm := toUnsigned context
  -- if(state==DISPSTATE_IDLE || state==DISPSTATE_REFSH) {
  if d.state = DISPSTATE.DISPSTATE_IDLE ∨ d.state = DISPSTATE.DISPSTATE_REFSH then
    -- if(newrpm!=ActualRPM) {
    if newrpm ≠ d.ActualRPM then
      -- ActualRPM=newrpm; char tempstr[6]; sprintf(tempstr,"%3.3d",ActualRPM);
      match sprintfInto (List.replicate 6 0) (format3d (toInt newrpm)) with
      | none => none
      | some tempstr =>
        -- lcd.setCursor(12,1); lcd.print(tempstr);
        some { d with ActualRPM := newrpm,
                      lcd := d.lcd ++ [LcdOp.setCursor 12 1, LcdOp.print (cString tempstr)] }
    else some d
  else some d

/-- `DISPKeyPressed` (display.cpp 234-269), called with `context`; `none` when
`sprintf` overruns `numarr`. -/
def DISPKeyPressed (d : Display) (context : Nat) : Option Display :=
  -- unsigned char keyval=(unsigned char)context;
  let keyval := context % 256
  match d.state with
  | DISPSTATE.DISPSTATE_IDLE | DISPSTATE.DISPSTATE_REFSH =>
    -- if(keyval<0x0a) {
    if keyval < 0x0a then
      -- curpos=9; sprintf(numarr,"%3.3d",DemandRPM);
      match sprintfInto d.numarr (format3d (toInt d.DemandRPM)) with
      | none => none
      | some numarr1 =>
        -- numarr[0]=0x30+keyval;
        let numarr2 := numarr1.set 0 (0x30 + keyval)
        -- lcd.clear(); ... lcd.setCursor(curpos,0); lcd.print(numarr);
        -- lcd.setCursor(++curpos,0); lcd.blink(); state=DISPSTATE_UPDATING;
        some { d with
          curpos := 10,
          numarr := numarr2,
          lcd := d.lcd ++ [LcdOp.clear, LcdOp.setCursor 0 0, LcdOp.printF "New RPM:",
            LcdOp.setCursor 9 0, LcdOp.print (cString numarr2), LcdOp.setCursor 10 0,
            LcdOp.blink],
          state := DISPSTATE.DISPSTATE_UPDATING }
    else some d
  | DISPSTATE.DISPSTATE_UPDATING => some d
  | _ => some d

/-- Of the calls made by `runCalls step is s`, the number for which `fires`
holds of the input and the state the call starts in.  With `fires now s` the
test `s.LEDTimer.isExpired now`, this is the number of calls in which
`ControlTask` finds the LED timer expired. -/
def firings {ι S : Type} (step : ι → S → S × List Message) (fires : ι → S → Bool) :
    List ι → S → Nat
  | [], _ => 0
  | i :: rest, s => (if fires i s then 1 else 0) + firings step fires rest (step i s).1

/-- Values for part 3's missing common.h with a small bound, `RPM_MAX` = 2,
used to run the definitions through a wrap of the counter. -/
def smallCommon3 : Part3.Common :=
  { MSG_ID_CHANGE_LED := 0, MSG_ID_NEW_ACTUAL_RPM := 4, MSG_ID_NEW_DEMAND_RPM := 5,
    RPM_MAX := 2 }

/-- Values for part 4's missing common.h with a small bound, `RPS_MAX` = 2,
used to run the definitions through a wrap of the counter. -/
def smallCommon4 : Part4.Common :=
  { MSG_ID_CHANGE_LED := 0, MSG_ID_NEW_ACTUAL_RPS := 4, MSG_ID_NEW_DEMAND_RPS := 5,
    RPS_MIN := 0, RPS_MAX := 2 }

/-- Clock readings of five `ControlTask` calls made once a second. -/
def secondTimes : List Nat := [1000, 2000, 3000, 4000, 5000]

/-- Clock readings of thirty `ControlTask` calls made every 300 ms. -/
def segTimes : List Nat := (List.range 30).map (fun i => 300 * (i + 1))

/-! ## The task ring: representation lemmas -/

theorem registerTaskHandler_success (tr : TaskRing) (h c : Nat) (hh : h ≠ NULL) :
    RegisterTaskHandler tr h c true =
      (0, { store := tr.store ++ [{ handler := h, context := c, pNext := tr.internals.pHead }],
            internals := { pHead := tr.store.length + 1, pCur := tr.internals.pCur } }) := by
  simp [RegisterTaskHandler, newTASKSTATE, setNext, deref, hh]

theorem registerTaskHandler_null (tr : TaskRing) (c : Nat) (allocOk : Bool) :
    RegisterTaskHandler tr NULL c allocOk = (-1, tr) := by
  simp [RegisterTaskHandler]

theorem registerTaskHandler_noroom (tr : TaskRing) (h c : Nat) :
    RegisterTaskHandler tr h c false = (-1, tr) := by
  by_cases hh : h = NULL <;> simp [RegisterTaskHandler, newTASKSTATE, hh]

theorem canon_fresh : Canon TaskRing.fresh := by
  constructor <;> simp [TaskRing.fresh]

theorem canon_register {tr : TaskRing} (hc : Canon tr) (h c : Nat) (allocOk : Bool) :
    Canon (RegisterTaskHandler tr h c allocOk).2 := by
  by_cases hh : h = NULL
  · subst hh; rw [registerTaskHandler_null]; exact hc
  · cases allocOk
    · rw [registerTaskHandler_noroom]; exact hc
    · rw [registerTaskHandler_success tr h c hh]
      constructor
      · intro i t hi
        simp only at hi
        by_cases hlt : i < tr.store.length
        · rw [List.getElem?_append_left hlt] at hi
          exact hc.next i t hi
        · have hle : tr.store.length ≤ i := Nat.le_of_not_lt hlt
          rw [List.getElem?_append_right hle] at hi
          by_cases hz : i - tr.store.length = 0
          · rw [hz] at hi
            simp at hi
            subst hi
            have hi2 : i = tr.store.length := by omega
            simp only
            rw [hc.head, hi2]
          · obtain ⟨k, hk⟩ := Nat.exists_eq_succ_of_ne_zero hz
            rw [hk] at hi
            simp at hi
      · simp
      · simp only [List.length_append, List.length_singleton, Nat.add_sub_cancel]
        exact Nat.le_trans hc.cur (Nat.sub_le _ _)
      · intro t ht
        simp only [List.mem_append, List.mem_singleton] at ht
        rcases ht with ht | ht
        · exact hc.handlers t ht
        · subst ht; exact hh

theorem chain_canon (store : List TASKSTATE)
    (hn : ∀ (i : Nat) (t : TASKSTATE), store[i]? = some t → t.pNext = i) :
    ∀ (fuel : Nat) (p : Nat), p ≤ fuel → p ≤ store.length →
      chain store fuel p = (store.take p).reverse := by
  intro fuel
  induction fuel with
  | zero =>
    intro p hp _
    have : p = 0 := Nat.le_zero.mp hp
    subst this
    simp [chain]
  | succ n ih =>
    intro p hp hl
    cases p with
    | zero => simp [chain, deref]
    | succ q =>
      have hq : q < store.length := hl
      have hget : store[q]? = some store[q] := List.getElem?_eq_getElem hq
      have hnext := hn q _ hget
      have hd : deref store (q + 1) = some store[q] := by
        simp [deref, hget]
      simp only [chain, hd]
      rw [hnext, ih q (Nat.le_of_succ_le_succ hp) (Nat.le_of_lt hq)]
      rw [List.take_succ, hget]
      simp only [Option.toList, List.reverse_append, List.reverse_cons, List.reverse_nil,
        List.nil_append, List.singleton_append]

theorem canon_list {tr : TaskRing} (hc : Canon tr) : tr.list = tr.store.reverse := by
  unfold TaskRing.list
  rw [chain_canon tr.store hc.next _ _ (by rw [hc.head]) (by rw [hc.head]), hc.head]
  simp

theorem loop_frames {σ : Type} {exec : TaskSemantics σ} (hf : FramesRing exec)
    (s : System σ) (t : TASKSTATE) (hq : s.tasks.effCur ≠ NULL)
    (hd : deref s.tasks.store s.tasks.effCur = some t) (hh : t.handler ≠ NULL) :
    Loop exec s =
      some ({ tasks := { store := s.tasks.store,
                         internals := { pHead := s.tasks.internals.pHead, pCur := t.pNext } },
              app := (exec t.handler t.context { tasks := s.tasks.atCur, app := s.app }).app },
            [callOf t]) := by
  have h1 : (if s.tasks.internals.pCur = NULL then
      ({ s.tasks with internals := { s.tasks.internals with pCur := s.tasks.internals.pHead } } :
        TaskRing)
      else s.tasks) = s.tasks.atCur := by
    unfold TaskRing.atCur TaskRing.effCur
    split <;> rfl
  have h2 : (exec t.handler t.context { tasks := s.tasks.atCur, app := s.app }).tasks
      = s.tasks.atCur := hf _ _ _
  unfold Loop
  simp only [h1]
  have h3 : s.tasks.atCur.internals.pCur = s.tasks.effCur := rfl
  have h4 : s.tasks.atCur.store = s.tasks.store := rfl
  simp only [h3, h4, hq, hd, hh, h2, ne_eq, not_false_eq_true, if_true, if_false]
  rfl

theorem loop_idle {σ : Type} (exec : TaskSemantics σ) (s : System σ)
    (hh : s.tasks.internals.pHead = NULL) (hcur : s.tasks.internals.pCur = NULL) :
    Loop exec s = some (s, []) := by
  cases s with
  | mk tasks app =>
    cases tasks with
    | mk store internals =>
      cases internals with
      | mk pHead pCur =>
        simp only at hcur hh
        subst hcur
        subst hh
        simp [Loop]

theorem canon_effCur {tr : TaskRing} (hc : Canon tr) (hne : tr.store ≠ []) :
    0 < tr.effCur ∧ tr.effCur ≤ tr.store.length := by
  have hlen : 0 < tr.store.length := List.length_pos.mpr hne
  unfold TaskRing.effCur
  split
  · rw [hc.head]; exact ⟨hlen, Nat.le_refl _⟩
  · rename_i h
    exact ⟨Nat.pos_of_ne_zero h, Nat.le_trans hc.cur (Nat.sub_le _ _)⟩

theorem loop_canon {σ : Type} {exec : TaskSemantics σ} (hf : FramesRing exec)
    (s : System σ) (hc : Canon s.tasks) (hne : s.tasks.store ≠ []) :
    ∃ t, s.tasks.store[s.tasks.effCur - 1]? = some t ∧
      deref s.tasks.store s.tasks.effCur = some t ∧
      Loop exec s =
        some ({ tasks := { store := s.tasks.store,
                           internals := { pHead := s.tasks.internals.pHead,
                                          pCur := s.tasks.effCur - 1 } },
                app := (exec t.handler t.context { tasks := s.tasks.atCur, app := s.app }).app },
              [callOf t]) := by
  obtain ⟨hpos, hle⟩ := canon_effCur hc hne
  have hlt : s.tasks.effCur - 1 < s.tasks.store.length := by omega
  have hget : s.tasks.store[s.tasks.effCur - 1]? = some s.tasks.store[s.tasks.effCur - 1] :=
    List.getElem?_eq_getElem hlt
  have hq : s.tasks.effCur ≠ NULL := Nat.pos_iff_ne_zero.mp hpos
  have hd : deref s.tasks.store s.tasks.effCur = some s.tasks.store[s.tasks.effCur - 1] := by
    unfold deref
    rw [if_neg hq, hget]
  refine ⟨_, hget, hd, ?_⟩
  have hh := hc.handlers _ (List.getElem_mem hlt)
  rw [loop_frames hf s _ hq hd hh, hc.next _ _ hget]

theorem canon_loop {σ : Type} {exec : TaskSemantics σ} (hf : FramesRing exec)
    {s s1 : System σ} {calls : List Call} (hc : Canon s.tasks)
    (hl : Loop exec s = some (s1, calls)) :
    Canon s1.tasks ∧ s1.tasks.store = s.tasks.store := by
  by_cases hne : s.tasks.store = []
  · have hh : s.tasks.internals.pHead = NULL := by rw [hc.head, hne]; rfl
    have hcur : s.tasks.internals.pCur = NULL := by
      have := hc.cur
      rw [hne] at this
      exact Nat.le_zero.mp this
    rw [loop_idle exec s hh hcur] at hl
    cases hl
    exact ⟨hc, rfl⟩
  · obtain ⟨t, _, _, hloop⟩ := loop_canon hf s hc hne
    obtain ⟨_, hle⟩ := canon_effCur hc hne
    rw [hloop] at hl
    cases hl
    refine ⟨⟨hc.next, hc.head, ?_, hc.handlers⟩, rfl⟩
    show s.tasks.effCur - 1 ≤ s.tasks.store.length - 1
    omega

theorem canon_registrations {tr : TaskRing} (hc : Canon tr) :
    tr.registrations = tr.store.reverse.map callOf := by
  unfold TaskRing.registrations
  rw [canon_list hc]

theorem reachable_canon {σ : Type} {exec : TaskSemantics σ} (hf : FramesRing exec)
    {hist : List Call} {s : System σ} (hr : Reachable exec hist s) :
    Canon s.tasks ∧ s.tasks.registrations = hist := by
  induction hr with
  | fresh a => exact ⟨canon_fresh, rfl⟩
  | @register hist s h c allocOk _ ih =>
    obtain ⟨hc, hreg⟩ := ih
    refine ⟨canon_register hc h c allocOk, ?_⟩
    have hc2 := canon_register hc h c allocOk
    by_cases hh : h = NULL
    · subst hh
      rw [registerTaskHandler_null]
      simpa using hreg
    · cases allocOk
      · rw [registerTaskHandler_noroom]
        simpa using hreg
      · rw [registerTaskHandler_success s.tasks h c hh] at hc2 ⊢
        simp only [if_true]
        rw [canon_registrations hc2, ← hreg, canon_registrations hc]
        simp [callOf]
  | @loop hist s s1 calls _ hl ih =>
    obtain ⟨hc, hreg⟩ := ih
    obtain ⟨hc1, hst⟩ := canon_loop hf hc hl
    refine ⟨hc1, ?_⟩
    rw [canon_registrations hc1, hst, ← canon_registrations hc, hreg]
  | app a _ ih => exact ih

theorem take_reverse_step (store : List TASKSTATE) (p : Nat) (t : TASKSTATE)
    (hp : 0 < p) (hget : store[p - 1]? = some t) :
    (store.take p).reverse = t :: (store.take (p - 1)).reverse := by
  obtain ⟨q, rfl⟩ : ∃ q, p = q + 1 := ⟨p - 1, by omega⟩
  simp only [Nat.add_sub_cancel] at hget ⊢
  rw [List.take_succ, hget]
  simp only [Option.toList, List.reverse_append, List.reverse_cons, List.reverse_nil,
    List.nil_append, List.singleton_append]

theorem loops_add {σ : Type} (exec : TaskSemantics σ) (a b : Nat) (s s1 s2 : System σ)
    (c1 c2 : List Call) (h1 : Loops exec a s = some (s1, c1))
    (h2 : Loops exec b s1 = some (s2, c2)) :
    Loops exec (a + b) s = some (s2, c1 ++ c2) := by
  induction a generalizing s c1 with
  | zero =>
    simp only [Loops, Option.some.injEq, Prod.mk.injEq] at h1
    obtain ⟨rfl, rfl⟩ := h1
    simpa using h2
  | succ n ih =>
    rw [Nat.succ_add]
    simp only [Loops] at h1 ⊢
    cases hl : Loop exec s with
    | none => rw [hl] at h1; simp at h1
    | some r =>
      obtain ⟨sa, ca⟩ := r
      rw [hl] at h1
      simp only at h1 ⊢
      cases hn : Loops exec n sa with
      | none => rw [hn] at h1; simp at h1
      | some r2 =>
        obtain ⟨sb, cb⟩ := r2
        rw [hn] at h1
        simp only [Option.some.injEq, Prod.mk.injEq] at h1
        obtain ⟨rfl, rfl⟩ := h1
        rw [ih sa cb hn]
        simp

theorem loops_down {σ : Type} {exec : TaskSemantics σ} (hf : FramesRing exec) :
    ∀ (k : Nat) (s : System σ), Canon s.tasks → k ≤ s.tasks.internals.pCur →
      ∃ s1, Loops exec k s =
          some (s1, (((s.tasks.store.take s.tasks.internals.pCur).reverse.take k).map callOf)) ∧
        s1.tasks = s.tasks.withCur (s.tasks.internals.pCur - k) := by
  intro k
  induction k with
  | zero =>
    intro s _ _
    exact ⟨s, by simp [Loops], rfl⟩
  | succ k ih =>
    intro s hc hk
    have hcur := hc.cur
    have hne : s.tasks.store ≠ [] := by
      intro h
      rw [h] at hcur
      simp at hcur
      omega
    have heff : s.tasks.effCur = s.tasks.internals.pCur := by
      unfold TaskRing.effCur
      rw [if_neg]
      simp only [NULL]
      omega
    obtain ⟨t, hget, _, hloop⟩ := loop_canon hf s hc hne
    rw [heff] at hget hloop
    obtain ⟨hc1, _⟩ := canon_loop hf hc hloop
    obtain ⟨s2, hl2, ht2⟩ := ih _ hc1 (by show k ≤ s.tasks.internals.pCur - 1; omega)
    refine ⟨s2, ?_, ?_⟩
    · have := loops_add exec 1 k s _ s2 [callOf t] _ (by simp [Loops, hloop]) hl2
      rw [Nat.add_comm] at this
      rw [this, take_reverse_step _ _ t (by omega) hget]
      simp
    · rw [ht2]
      simp only [TaskRing.withCur]
      congr 2
      omega

theorem canon_withCur {tr : TaskRing} (hc : Canon tr) (p : Nat)
    (hp : p ≤ tr.store.length - 1) : Canon (tr.withCur p) :=
  ⟨hc.next, hc.head, hp, hc.handlers⟩

theorem loops_first {σ : Type} {exec : TaskSemantics σ} (hf : FramesRing exec)
    (k : Nat) (s : System σ) (hc : Canon s.tasks) (hne : s.tasks.store ≠ [])
    (hk : k + 1 ≤ s.tasks.effCur) :
    ∃ s1, Loops exec (k + 1) s =
        some (s1, (((s.tasks.store.take s.tasks.effCur).reverse.take (k + 1)).map callOf)) ∧
      s1.tasks = s.tasks.withCur (s.tasks.effCur - (k + 1)) := by
  obtain ⟨t, hget, _, hloop⟩ := loop_canon hf s hc hne
  obtain ⟨hc1, _⟩ := canon_loop hf hc hloop
  obtain ⟨s2, hl2, ht2⟩ := loops_down hf k _ hc1 (by show k ≤ s.tasks.effCur - 1; omega)
  refine ⟨s2, ?_, ?_⟩
  · have := loops_add exec 1 k s _ s2 [callOf t] _ (by simp [Loops, hloop]) hl2
    rw [Nat.add_comm] at this
    rw [this, take_reverse_step _ _ t (by omega) hget]
    simp
  · rw [ht2]
    simp only [TaskRing.withCur]
    congr 2
    omega

theorem loops_cycle {σ : Type} {exec : TaskSemantics σ} (hf : FramesRing exec)
    (s : System σ) (hc : Canon s.tasks) (hne : s.tasks.store ≠ []) :
    ∃ s1, Loops exec s.tasks.store.length s =
        some (s1, s.tasks.registrations.rotate (s.tasks.store.length - s.tasks.effCur)) ∧
      s1.tasks = s.tasks := by
  obtain ⟨hpos, hle⟩ := canon_effCur hc hne
  have hcur := hc.cur
  have hhead := hc.head
  rw [canon_registrations hc]
  obtain ⟨sa, hla, hta⟩ := loops_first hf (s.tasks.effCur - 1) s hc hne (by omega)
  have e1 : s.tasks.effCur - 1 + 1 = s.tasks.effCur := by omega
  rw [e1] at hla hta
  rw [Nat.sub_self] at hta
  have hA : List.take s.tasks.effCur (List.take s.tasks.effCur s.tasks.store).reverse
      = (List.take s.tasks.effCur s.tasks.store).reverse :=
    List.take_of_length_le (by simp)
  rw [hA] at hla
  by_cases hq : s.tasks.effCur = s.tasks.store.length
  · have hz : s.tasks.internals.pCur = 0 := by
      by_contra hnz
      have : s.tasks.effCur = s.tasks.internals.pCur := by
        unfold TaskRing.effCur; rw [if_neg hnz]
      omega
    refine ⟨sa, ?_, ?_⟩
    · rw [← hq, hla, hq]
      simp
    · rw [hta]
      cases s with
      | mk tasks app =>
        cases tasks with
        | mk store internals =>
          cases internals with
          | mk pHead pCur =>
            simp only at hz
            subst hz
            rfl
  · have hp : s.tasks.internals.pCur = s.tasks.effCur := by
      by_contra hnz
      have : s.tasks.effCur = s.tasks.internals.pHead := by
        unfold TaskRing.effCur
        split
        · rfl
        · rename_i h
          exact absurd (by unfold TaskRing.effCur; rw [if_neg h]) hnz
      omega
    have hca : Canon sa.tasks := by
      rw [hta]; exact canon_withCur hc 0 (Nat.zero_le _)
    have hsa_store : sa.tasks.store = s.tasks.store := by rw [hta]; rfl
    have hsa_eff : sa.tasks.effCur = s.tasks.store.length := by
      rw [hta]
      simp only [TaskRing.effCur, TaskRing.withCur, if_true]
      exact hhead
    obtain ⟨sb, hlb, htb⟩ := loops_first hf (s.tasks.store.length - s.tasks.effCur - 1) sa hca
      (by rw [hsa_store]; exact hne) (by rw [hsa_eff]; omega)
    have e2 : s.tasks.store.length - s.tasks.effCur - 1 + 1
        = s.tasks.store.length - s.tasks.effCur := by omega
    rw [e2, hsa_eff, hsa_store, List.take_length] at hlb
    rw [e2, hsa_eff] at htb
    refine ⟨sb, ?_, ?_⟩
    · have := loops_add exec _ _ s sa sb _ _ hla hlb
      have e3 : s.tasks.effCur + (s.tasks.store.length - s.tasks.effCur)
          = s.tasks.store.length := by omega
      rw [e3] at this
      rw [this, List.rotate_eq_drop_append_take (by simp), List.reverse_take,
        List.map_drop, List.map_take]
    · rw [htb, hta]
      have e4 : s.tasks.store.length - (s.tasks.store.length - s.tasks.effCur)
          = s.tasks.internals.pCur := by omega
      simp only [TaskRing.withCur, e4]

theorem registerTaskHandler_cases (tr : TaskRing) (h c : Nat) (allocOk : Bool) :
    (h ≠ NULL ∧ allocOk = true ∧ RegisterTaskHandler tr h c allocOk =
      (0, { store := tr.store ++ [{ handler := h, context := c, pNext := tr.internals.pHead }],
            internals := { pHead := tr.store.length + 1, pCur := tr.internals.pCur } })) ∨
    ((h = NULL ∨ allocOk = false) ∧ RegisterTaskHandler tr h c allocOk = (-1, tr)) := by
  by_cases hh : h = NULL
  · right
    subst hh
    exact ⟨Or.inl rfl, registerTaskHandler_null tr c allocOk⟩
  · cases allocOk
    · right
      exact ⟨Or.inr rfl, registerTaskHandler_noroom tr h c⟩
    · left
      exact ⟨hh, rfl, registerTaskHandler_success tr h c hh⟩

theorem loop_det {σ : Type} {exec : TaskSemantics σ} (hf : FramesRing exec)
    (s s2 : System σ) (hc : Canon s.tasks) (he : s2.tasks = s.tasks) :
    ∃ r r2 calls, Loop exec s = some (r, calls) ∧ Loop exec s2 = some (r2, calls) ∧
      r2.tasks = r.tasks ∧ Canon r.tasks ∧ r.tasks.store = s.tasks.store ∧
      (s.tasks.store ≠ [] → ∃ c, calls = [c]) := by
  have hc2 : Canon s2.tasks := by rw [he]; exact hc
  by_cases hne : s.tasks.store = []
  · have hh : s.tasks.internals.pHead = NULL := by rw [hc.head, hne]; rfl
    have hcur : s.tasks.internals.pCur = NULL := by
      have := hc.cur
      rw [hne] at this
      exact Nat.le_zero.mp this
    refine ⟨s, s2, [], loop_idle exec s hh hcur,
      loop_idle exec s2 (by rw [he]; exact hh) (by rw [he]; exact hcur), he, hc, rfl, ?_⟩
    intro h; exact absurd hne h
  · obtain ⟨t, hget, _, hloop⟩ := loop_canon hf s hc hne
    obtain ⟨t2, hget2, _, hloop2⟩ := loop_canon hf s2 hc2 (by rw [he]; exact hne)
    rw [he, hget] at hget2
    cases hget2
    obtain ⟨hc1, hst⟩ := canon_loop hf hc hloop
    refine ⟨_, _, _, hloop, hloop2, ?_, hc1, hst, fun _ => ⟨_, rfl⟩⟩
    simp only [he]

theorem loops_det {σ : Type} {exec : TaskSemantics σ} (hf : FramesRing exec) :
    ∀ (m : Nat) (s s2 : System σ), Canon s.tasks → s2.tasks = s.tasks →
      ∃ r r2 calls, Loops exec m s = some (r, calls) ∧ Loops exec m s2 = some (r2, calls) ∧
        r2.tasks = r.tasks ∧ Canon r.tasks ∧ r.tasks.store = s.tasks.store := by
  intro m
  induction m with
  | zero =>
    intro s s2 hc he
    exact ⟨s, s2, [], rfl, rfl, he, hc, rfl⟩
  | succ m ih =>
    intro s s2 hc he
    obtain ⟨r, r2, calls, h1, h2, he1, hc1, hst1, _⟩ := loop_det hf s s2 hc he
    obtain ⟨q, q2, calls2, h3, h4, he2, hc2, hst2⟩ := ih r r2 hc1 he1
    refine ⟨q, q2, calls ++ calls2, ?_, ?_, he2, hc2, by rw [hst2, hst1]⟩
    · simp only [Loops, h1, h3]
    · simp only [Loops, h2, h4]

theorem reachable_nil_fresh {σ : Type} {exec : TaskSemantics σ}
    {hist : List Call} {s : System σ} (hr : Reachable exec hist s) :
    hist = [] → s.tasks = TaskRing.fresh := by
  induction hr with
  | fresh a => intro _; rfl
  | @register hist s h c allocOk _ ih =>
    intro hnil
    rcases registerTaskHandler_cases s.tasks h c allocOk with ⟨_, _, he⟩ | ⟨_, he⟩
    · rw [he] at hnil
      simp at hnil
    · rw [he] at hnil ⊢
      simp only [Int.reduceNeg, Int.neg_eq_zero, one_ne_zero, if_false] at hnil
      exact ih hnil
  | @loop hist s s1 calls _ hl ih =>
    intro hnil
    have hfr := ih hnil
    rw [loop_idle exec s (by rw [hfr]; rfl) (by rw [hfr]; rfl)] at hl
    cases hl
    exact hfr
  | app a _ ih => exact ih

theorem registerAll_reachable {σ : Type} (exec : TaskSemantics σ) :
    ∀ (regs : List (Nat × Nat × Bool)) (hist : List Call) (s : System σ),
      Reachable exec hist s → (∀ rc ∈ (registerAll s.tasks regs).1, rc = 0) →
      Reachable exec ((regs.map (fun r => (r.1, r.2.1))).reverse ++ hist)
          { tasks := (registerAll s.tasks regs).2, app := s.app } ∧
        (registerAll s.tasks regs).2.internals.pCur = s.tasks.internals.pCur := by
  intro regs
  induction regs with
  | nil =>
    intro hist s hr _
    exact ⟨by simpa [registerAll] using hr, rfl⟩
  | cons r rest ih =>
    intro hist s hr hall
    have h0 : (RegisterTaskHandler s.tasks r.1 r.2.1 r.2.2).1 = 0 :=
      hall _ (by simp [registerAll])
    have hr1 := Reachable.register r.1 r.2.1 r.2.2 hr
    rw [if_pos h0] at hr1
    have hcur : (RegisterTaskHandler s.tasks r.1 r.2.1 r.2.2).2.internals.pCur
        = s.tasks.internals.pCur := by
      rcases registerTaskHandler_cases s.tasks r.1 r.2.1 r.2.2 with ⟨_, _, he⟩ | ⟨_, he⟩
      · rw [he]
      · rw [he]
    obtain ⟨h2, h3⟩ := ih _ _ hr1 (by
      intro rc hrc
      exact hall rc (by simp only [registerAll, List.mem_cons]; exact Or.inr hrc))
    refine ⟨?_, ?_⟩
    · simpa [registerAll] using h2
    · simp only [registerAll]
      rw [← hcur]
      exact h3

/-! ## The task ring: the scheduler contract -/

theorem idleTasks_frames : FramesRing idleTasks := fun _ _ _ => rfl

/-- C1: starting from a fresh TaskRing, after N ≥ 1 successful
RegisterTaskHandler calls (h1,c1), ..., (hN,cN) made in that order, N
consecutive Loop calls invoke hN(cN), ..., h1(c1) in exactly that order, and
the next N Loop calls invoke the identical sequence again (task handlers
leave the ring alone). -/
theorem loops_run_registrations_in_reverse {σ : Type} (exec : TaskSemantics σ)
    (hf : FramesRing exec) (regs : List (Nat × Nat × Bool)) (a : σ)
    (hN : 1 ≤ regs.length)
    (hok : ∀ rc ∈ (registerAll TaskRing.fresh regs).1, rc = 0) :
    ∃ s1 s2,
      Loops exec regs.length { tasks := (registerAll TaskRing.fresh regs).2, app := a } =
        some (s1, (regs.map (fun r => (r.1, r.2.1))).reverse) ∧
      Loops exec regs.length s1 =
        some (s2, (regs.map (fun r => (r.1, r.2.1))).reverse) := by
  obtain ⟨hr, hcur⟩ := registerAll_reachable exec regs []
    { tasks := TaskRing.fresh, app := a } (Reachable.fresh a) hok
  rw [List.append_nil] at hr
  obtain ⟨hc, hreg⟩ := reachable_canon hf hr
  simp only at hc hreg hcur
  have hlen : (registerAll TaskRing.fresh regs).2.store.length = regs.length := by
    have := congrArg List.length hreg
    rw [canon_registrations hc] at this
    simpa using this
  have hne : (registerAll TaskRing.fresh regs).2.store ≠ [] := by
    intro h
    rw [h] at hlen
    simp at hlen
    omega
  have heff : (registerAll TaskRing.fresh regs).2.effCur = regs.length := by
    have hz : (registerAll TaskRing.fresh regs).2.internals.pCur = NULL := hcur
    unfold TaskRing.effCur
    rw [if_pos hz, hc.head, hlen]
  obtain ⟨s1, hl1, ht1⟩ := loops_cycle hf
    { tasks := (registerAll TaskRing.fresh regs).2, app := a } hc hne
  simp only at hl1 ht1
  rw [hlen, heff, Nat.sub_self, List.rotate_zero, hreg] at hl1
  have hc1 : Canon s1.tasks := by rw [ht1]; exact hc
  obtain ⟨s2, hl2, _⟩ := loops_cycle hf s1 hc1 (by rw [ht1]; exact hne)
  rw [ht1, hlen, heff, Nat.sub_self, List.rotate_zero, hreg] at hl2
  exact ⟨s1, s2, hl1, hl2⟩

theorem loops_run_registrations_in_reverse_witness :
    ∃ s1 s2,
      Loops idleTasks 3
          { tasks := (registerAll TaskRing.fresh [(11, 1, true), (12, 0, true), (13, 3, true)]).2,
            app := () } =
        some (s1, [(13, 3), (12, 0), (11, 1)]) ∧
      Loops idleTasks 3 s1 = some (s2, [(13, 3), (12, 0), (11, 1)]) :=
  loops_run_registrations_in_reverse idleTasks idleTasks_frames
    [(11, 1, true), (12, 0, true), (13, 3, true)] () (by decide) (by decide)

/-- C2, as the claim states it, fails: with a non-null handler the call
returns -1 and registers nothing when `new` yields no object. -/
theorem register_nonnull_handler_can_fail :
    (7 : Nat) ≠ NULL ∧
      (RegisterTaskHandler TaskRing.fresh 7 3 false).1 = -1 ∧
      (RegisterTaskHandler TaskRing.fresh 7 3 false).2.registrations = [] := by
  decide

/-- C2 (amended): in every reachable scheduler state, for every non-null
handler and any context, when the allocation of the new TASKSTATE succeeds
RegisterTaskHandler returns 0 and the registration list becomes the new
registration (handler, context) at the head followed by the previous list in
its previous order. -/
theorem register_prepends {σ : Type} (exec : TaskSemantics σ) (hf : FramesRing exec)
    (hist : List Call) (s : System σ) (hr : Reachable exec hist s)
    (h c : Nat) (hh : h ≠ NULL) :
    (RegisterTaskHandler s.tasks h c true).1 = 0 ∧
      (RegisterTaskHandler s.tasks h c true).2.list =
        { handler := h, context := c, pNext := s.tasks.internals.pHead } :: s.tasks.list ∧
      (RegisterTaskHandler s.tasks h c true).2.registrations =
        (h, c) :: s.tasks.registrations := by
  obtain ⟨hc, _⟩ := reachable_canon hf hr
  have hc2 := canon_register hc h c true
  have hl : (RegisterTaskHandler s.tasks h c true).2.list =
      { handler := h, context := c, pNext := s.tasks.internals.pHead } :: s.tasks.list := by
    rw [canon_list hc2, canon_list hc, registerTaskHandler_success s.tasks h c hh]
    simp
  refine ⟨by rw [registerTaskHandler_success s.tasks h c hh], hl, ?_⟩
  unfold TaskRing.registrations
  rw [hl]
  rfl

theorem register_prepends_witness :
    (RegisterTaskHandler (RegisterTaskHandler TaskRing.fresh 5 6 true).2 7 8 true).1 = 0 ∧
      (RegisterTaskHandler (RegisterTaskHandler TaskRing.fresh 5 6 true).2 7 8 true).2.list =
        { handler := 7, context := 8,
          pNext := (RegisterTaskHandler TaskRing.fresh 5 6 true).2.internals.pHead } ::
          (RegisterTaskHandler TaskRing.fresh 5 6 true).2.list ∧
      (RegisterTaskHandler (RegisterTaskHandler TaskRing.fresh 5 6 true).2 7 8 true).2.registrations =
        (7, 8) :: (RegisterTaskHandler TaskRing.fresh 5 6 true).2.registrations :=
  register_prepends idleTasks idleTasks_frames [(5, 6)]
    { tasks := (RegisterTaskHandler TaskRing.fresh 5 6 true).2, app := () }
    (Reachable.register 5 6 true (Reachable.fresh ())) 7 8 (by decide)

/-- C3, as the claim states it, fails: the call also returns -1 for a
non-null handler, when `new` yields no object. -/
theorem register_failure_without_null_handler :
    (9 : Nat) ≠ NULL ∧
      (RegisterTaskHandler (RegisterTaskHandler TaskRing.fresh 5 6 true).2 9 0 false).1 = -1 := by
  decide

/-- C3 (amended): RegisterTaskHandler returns the failure status -1 (non-zero)
exactly when the handler is null or the allocation of the new TASKSTATE
fails; in both cases the ring (registration list and cursor) is left
unchanged, whatever the context argument is; in every other case it
returns 0. -/
theorem register_failure_iff (tr : TaskRing) (h c : Nat) (allocOk : Bool) :
    ((RegisterTaskHandler tr h c allocOk).1 = -1 ↔ (h = NULL ∨ allocOk = false)) ∧
      ((RegisterTaskHandler tr h c allocOk).1 ≠ 0 ↔ (h = NULL ∨ allocOk = false)) ∧
      ((h = NULL ∨ allocOk = false) →
        (RegisterTaskHandler tr h c allocOk).2 = tr ∧
        (RegisterTaskHandler tr h c allocOk).2.registrations = tr.registrations ∧
        (RegisterTaskHandler tr h c allocOk).2.internals.pCur = tr.internals.pCur) := by
  rcases registerTaskHandler_cases tr h c allocOk with ⟨hh, hok, he⟩ | ⟨hor, he⟩
  · rw [he]
    have hno : ¬ (h = NULL ∨ allocOk = false) := by
      rintro (h1 | h1)
      · exact hh h1
      · rw [hok] at h1; cases h1
    refine ⟨⟨fun h1 => by simp at h1, fun h1 => absurd h1 hno⟩,
      ⟨fun h1 => absurd rfl h1, fun h1 => absurd h1 hno⟩, fun h1 => absurd h1 hno⟩
  · rw [he]
    exact ⟨⟨fun _ => hor, fun _ => rfl⟩, ⟨fun _ => hor, fun _ => by simp⟩,
      fun _ => ⟨rfl, rfl, rfl⟩⟩

theorem reachable_nonempty {σ : Type} {exec : TaskSemantics σ} (hf : FramesRing exec)
    {hist : List Call} {s : System σ} (hr : Reachable exec hist s)
    (hne : s.tasks.registrations ≠ []) : Canon s.tasks ∧ s.tasks.store ≠ [] := by
  obtain ⟨hc, _⟩ := reachable_canon hf hr
  refine ⟨hc, ?_⟩
  intro h
  apply hne
  rw [canon_registrations hc, h]
  rfl

theorem canon_list_getElem {tr : TaskRing} (hc : Canon tr) (q : Nat)
    (hq : 0 < q) (hle : q ≤ tr.store.length) :
    tr.list[tr.store.length - q]? = tr.store[q - 1]? := by
  rw [canon_list hc, List.getElem?_reverse (by omega)]
  congr 1
  omega

/-- C4: in every reachable scheduler state with a non-empty registration
list, one Loop call invokes exactly one handler: the handler of the
registration at the cursor (the head registration when the cursor is unset),
and it passes that registration's stored context, the very (handler, context)
pair of a successful RegisterTaskHandler call. -/
theorem loop_invokes_registration_at_cursor {σ : Type} (exec : TaskSemantics σ)
    (hf : FramesRing exec) (hist : List Call) (s : System σ)
    (hr : Reachable exec hist s) (hne : s.tasks.registrations ≠ []) :
    ∃ t s1,
      deref s.tasks.store
          (if s.tasks.internals.pCur = NULL then s.tasks.internals.pHead
           else s.tasks.internals.pCur) = some t ∧
        Loop exec s = some (s1, [(t.handler, t.context)]) ∧
        t ∈ s.tasks.list ∧
        (t.handler, t.context) ∈ hist ∧
        (s.tasks.internals.pCur = NULL → s.tasks.list.head? = some t) := by
  obtain ⟨hc, hst⟩ := reachable_nonempty hf hr hne
  obtain ⟨_, hreg⟩ := reachable_canon hf hr
  obtain ⟨hpos, hle⟩ := canon_effCur hc hst
  obtain ⟨t, hget, hd, hloop⟩ := loop_canon hf s hc hst
  have hmem : t ∈ s.tasks.list := by
    rw [canon_list hc, List.mem_reverse]
    exact List.getElem?_mem hget
  refine ⟨t, _, hd, hloop, hmem, ?_, ?_⟩
  · rw [← hreg]
    unfold TaskRing.registrations
    exact List.mem_map.mpr ⟨t, hmem, rfl⟩
  · intro hz
    have heff : s.tasks.effCur = s.tasks.store.length := by
      unfold TaskRing.effCur
      rw [if_pos hz, hc.head]
    have h0 := canon_list_getElem hc s.tasks.effCur hpos hle
    rw [hget, heff, Nat.sub_self] at h0
    rw [List.head?_eq_getElem?]
    exact h0

theorem loop_invokes_registration_at_cursor_witness :
    ∃ t s1,
      deref (RegisterTaskHandler (RegisterTaskHandler TaskRing.fresh 5 6 true).2 7 8 true).2.store
          (if (RegisterTaskHandler (RegisterTaskHandler TaskRing.fresh 5 6 true).2 7 8
                true).2.internals.pCur = NULL
           then (RegisterTaskHandler (RegisterTaskHandler TaskRing.fresh 5 6 true).2 7 8
                true).2.internals.pHead
           else (RegisterTaskHandler (RegisterTaskHandler TaskRing.fresh 5 6 true).2 7 8
                true).2.internals.pCur) = some t ∧
        Loop idleTasks
            { tasks := (RegisterTaskHandler (RegisterTaskHandler TaskRing.fresh 5 6 true).2 7 8
                true).2, app := () } = some (s1, [(t.handler, t.context)]) ∧
        t ∈ (RegisterTaskHandler (RegisterTaskHandler TaskRing.fresh 5 6 true).2 7 8
                true).2.list ∧
        (t.handler, t.context) ∈ [(7, 8), (5, 6)] ∧
        ((RegisterTaskHandler (RegisterTaskHandler TaskRing.fresh 5 6 true).2 7 8
                true).2.internals.pCur = NULL →
          (RegisterTaskHandler (RegisterTaskHandler TaskRing.fresh 5 6 true).2 7 8
                true).2.list.head? = some t) :=
  loop_invokes_registration_at_cursor idleTasks idleTasks_frames [(7, 8), (5, 6)]
    { tasks := (RegisterTaskHandler (RegisterTaskHandler TaskRing.fresh 5 6 true).2 7 8 true).2,
      app := () }
    (Reachable.register 7 8 true (Reachable.register 5 6 true (Reachable.fresh ())))
    (by decide)

/-- C5: when no task has been registered (no RegisterTaskHandler call has
succeeded, so the list is empty), any number of consecutive Loop calls return,
invoke no handler and leave the whole state, list and cursor included,
unchanged. -/
theorem loops_do_nothing_without_registrations {σ : Type} (exec : TaskSemantics σ)
    (s : System σ) (hr : Reachable exec [] s) (n : Nat) :
    s.tasks.registrations = [] ∧ Loops exec n s = some (s, []) := by
  have hfr := reachable_nil_fresh hr rfl
  refine ⟨by rw [hfr]; rfl, ?_⟩
  induction n with
  | zero => rfl
  | succ n ih =>
    simp only [Loops]
    rw [loop_idle exec s (by rw [hfr]; rfl) (by rw [hfr]; rfl)]
    simp only [ih, List.append_nil]

theorem loops_do_nothing_without_registrations_witness :
    (RegisterTaskHandler TaskRing.fresh NULL 4 true).2.registrations = [] ∧
      Loops idleTasks 5 { tasks := (RegisterTaskHandler TaskRing.fresh NULL 4 true).2, app := () } =
        some ({ tasks := (RegisterTaskHandler TaskRing.fresh NULL 4 true).2, app := () }, []) :=
  loops_do_nothing_without_registrations idleTasks
    { tasks := (RegisterTaskHandler TaskRing.fresh NULL 4 true).2, app := () }
    (Reachable.register NULL 4 true (Reachable.fresh ())) 5

/-- C6: after a Loop call on a non-empty list (reachable state), the cursor
is the registration that follows the one just invoked (position i + 1 of the
list when position i was invoked), and it is unset exactly when the invoked
registration was the last one; the turn that follows the last registration's
turn invokes the head registration. -/
theorem loop_advances_cursor {σ : Type} (exec : TaskSemantics σ)
    (hf : FramesRing exec) (hist : List Call) (s : System σ)
    (hr : Reachable exec hist s) (hne : s.tasks.registrations ≠ []) :
    ∃ i t s1,
      s.tasks.list[i]? = some t ∧
        deref s.tasks.store
          (if s.tasks.internals.pCur = NULL then s.tasks.internals.pHead
           else s.tasks.internals.pCur) = some t ∧
        Loop exec s = some (s1, [(t.handler, t.context)]) ∧
        s1.tasks.internals.pCur = t.pNext ∧
        deref s1.tasks.store s1.tasks.internals.pCur = s.tasks.list[i + 1]? ∧
        (s1.tasks.internals.pCur = NULL ↔ i + 1 = s.tasks.list.length) ∧
        (i + 1 = s.tasks.list.length →
          ∃ t0 s2, s.tasks.list.head? = some t0 ∧
            Loop exec s1 = some (s2, [(t0.handler, t0.context)])) := by
  obtain ⟨hc, hst⟩ := reachable_nonempty hf hr hne
  obtain ⟨hpos, hle⟩ := canon_effCur hc hst
  obtain ⟨t, hget, hd, hloop⟩ := loop_canon hf s hc hst
  obtain ⟨hc1, hst1⟩ := canon_loop hf hc hloop
  have hlen : s.tasks.list.length = s.tasks.store.length := by
    rw [canon_list hc, List.length_reverse]
  have hi : s.tasks.list[s.tasks.store.length - s.tasks.effCur]? = some t := by
    rw [canon_list_getElem hc _ hpos hle, hget]
  have hnextd : deref s.tasks.store (s.tasks.effCur - 1)
      = s.tasks.list[s.tasks.store.length - s.tasks.effCur + 1]? := by
    by_cases h1 : s.tasks.effCur = 1
    · rw [h1]
      have : s.tasks.list[s.tasks.store.length - 1 + 1]? = none := by
        rw [List.getElem?_eq_none]
        omega
      rw [this]
      rfl
    · have h2 := canon_list_getElem hc (s.tasks.effCur - 1) (by omega) (by omega)
      have e : s.tasks.store.length - (s.tasks.effCur - 1)
          = s.tasks.store.length - s.tasks.effCur + 1 := by omega
      rw [e] at h2
      rw [h2]
      unfold deref
      rw [if_neg (by simp only [NULL]; omega)]
  refine ⟨s.tasks.store.length - s.tasks.effCur, t, _, hi, hd, hloop,
    (hc.next _ _ hget).symm, hnextd, ?_, ?_⟩
  · show s.tasks.effCur - 1 = 0 ↔ _
    rw [hlen]
    omega
  · intro hlast
    rw [hlen] at hlast
    have h1 : s.tasks.effCur = 1 := by omega
    obtain ⟨t0, hget0, _, hloop0⟩ := loop_canon hf _ hc1 (by rw [hst1]; exact hst)
    have heff1 : TaskRing.effCur
        { store := s.tasks.store,
          internals := { pHead := s.tasks.internals.pHead, pCur := s.tasks.effCur - 1 } }
        = s.tasks.store.length := by
      have hz : s.tasks.effCur - 1 = NULL := by rw [h1]
      show (if s.tasks.effCur - 1 = NULL then s.tasks.internals.pHead
        else s.tasks.effCur - 1) = _
      rw [if_pos hz]
      exact hc.head
    simp only [heff1] at hget0
    refine ⟨t0, _, ?_, hloop0⟩
    have h0 := canon_list_getElem hc s.tasks.store.length (by omega) (Nat.le_refl _)
    rw [Nat.sub_self] at h0
    rw [List.head?_eq_getElem?, h0, hget0]

theorem loop_advances_cursor_witness :
    ∃ i t s1,
      (registerAll TaskRing.fresh [(5, 6, true), (7, 8, true)]).2.list[i]? = some t ∧
        deref (registerAll TaskRing.fresh [(5, 6, true), (7, 8, true)]).2.store
          (if (registerAll TaskRing.fresh [(5, 6, true), (7, 8, true)]).2.internals.pCur = NULL
           then (registerAll TaskRing.fresh [(5, 6, true), (7, 8, true)]).2.internals.pHead
           else (registerAll TaskRing.fresh [(5, 6, true), (7, 8, true)]).2.internals.pCur)
          = some t ∧
        Loop idleTasks
            { tasks := (registerAll TaskRing.fresh [(5, 6, true), (7, 8, true)]).2, app := () }
          = some (s1, [(t.handler, t.context)]) ∧
        s1.tasks.internals.pCur = t.pNext ∧
        deref s1.tasks.store s1.tasks.internals.pCur
          = (registerAll TaskRing.fresh [(5, 6, true), (7, 8, true)]).2.list[i + 1]? ∧
        (s1.tasks.internals.pCur = NULL ↔
          i + 1 = (registerAll TaskRing.fresh [(5, 6, true), (7, 8, true)]).2.list.length) ∧
        (i + 1 = (registerAll TaskRing.fresh [(5, 6, true), (7, 8, true)]).2.list.length →
          ∃ t0 s2,
            (registerAll TaskRing.fresh [(5, 6, true), (7, 8, true)]).2.list.head? = some t0 ∧
            Loop idleTasks s1 = some (s2, [(t0.handler, t0.context)])) :=
  loop_advances_cursor idleTasks idleTasks_frames [(7, 8), (5, 6)]
    { tasks := (registerAll TaskRing.fresh [(5, 6, true), (7, 8, true)]).2, app := () }
    (Reachable.register 7 8 true (Reachable.register 5 6 true (Reachable.fresh ())))
    (by decide)

/-- C7: in every reachable scheduler state that holds N ≥ 1 registrations,
N consecutive Loop calls (no registration in between) invoke every
registration exactly once: the invocations are a rotation, hence a
permutation, of the registration list, wherever the cursor stood at the
start; and the registration invoked on turn k + N is the one invoked on
turn k, for every k. -/
theorem every_cycle_runs_each_registration_once {σ : Type} (exec : TaskSemantics σ)
    (hf : FramesRing exec) (hist : List Call) (s : System σ)
    (hr : Reachable exec hist s) (hN : 1 ≤ s.tasks.registrations.length) :
    (∃ s1 calls,
        Loops exec s.tasks.registrations.length s = some (s1, calls) ∧
        calls.Perm s.tasks.registrations ∧
        (∃ k, calls = s.tasks.registrations.rotate k) ∧
        s1.tasks = s.tasks) ∧
      (∀ k : Nat, ∃ sa ca sa1 sb cb sb1 c,
        Loops exec k s = some (sa, ca) ∧ Loop exec sa = some (sa1, [c]) ∧
        Loops exec (k + s.tasks.registrations.length) s = some (sb, cb) ∧
        Loop exec sb = some (sb1, [c])) := by
  have hne : s.tasks.registrations ≠ [] := by
    intro h
    rw [h] at hN
    simp at hN
  obtain ⟨hc, hst⟩ := reachable_nonempty hf hr hne
  have hlen : s.tasks.registrations.length = s.tasks.store.length := by
    rw [canon_registrations hc]
    simp
  obtain ⟨s1, hcyc, ht1⟩ := loops_cycle hf s hc hst
  rw [hlen]
  constructor
  · exact ⟨s1, _, hcyc, List.rotate_perm _ _, ⟨_, rfl⟩, ht1⟩
  · intro k
    obtain ⟨r, r2, calls, hk1, hk2, he, hcr, hstr⟩ := loops_det hf k s s1 hc ht1
    have hsum := loops_add exec _ _ s s1 r2 _ _ hcyc hk2
    rw [Nat.add_comm] at hsum
    obtain ⟨x, x2, cs, hx, hx2, _, _, _, hone⟩ := loop_det hf r r2 hcr he
    obtain ⟨c, hcs⟩ := hone (by rw [hstr]; exact hst)
    subst hcs
    exact ⟨r, calls, x, r2, _, x2, c, hk1, hx, hsum, hx2⟩

theorem every_cycle_runs_each_registration_once_witness :
    (∃ s1 calls,
        Loops idleTasks
            (System.tasks
              { tasks := { store := [{ handler := 5, context := 6, pNext := 0 },
                                     { handler := 7, context := 8, pNext := 1 }],
                           internals := { pHead := 2, pCur := 1 } },
                app := () }).registrations.length
            { tasks := { store := [{ handler := 5, context := 6, pNext := 0 },
                                   { handler := 7, context := 8, pNext := 1 }],
                         internals := { pHead := 2, pCur := 1 } },
              app := () }
          = some (s1, calls) ∧
        calls.Perm
          (System.tasks
            { tasks := { store := [{ handler := 5, context := 6, pNext := 0 },
                                   { handler := 7, context := 8, pNext := 1 }],
                         internals := { pHead := 2, pCur := 1 } },
              app := () }).registrations ∧
        (∃ k, calls =
          (System.tasks
            { tasks := { store := [{ handler := 5, context := 6, pNext := 0 },
                                   { handler := 7, context := 8, pNext := 1 }],
                         internals := { pHead := 2, pCur := 1 } },
              app := () }).registrations.rotate k) ∧
        s1.tasks =
          System.tasks
            { tasks := { store := [{ handler := 5, context := 6, pNext := 0 },
                                   { handler := 7, context := 8, pNext := 1 }],
                         internals := { pHead := 2, pCur := 1 } },
              app := () }) ∧
      (∀ k : Nat, ∃ sa ca sa1 sb cb sb1 c,
        Loops idleTasks k
            { tasks := { store := [{ handler := 5, context := 6, pNext := 0 },
                                   { handler := 7, context := 8, pNext := 1 }],
                         internals := { pHead := 2, pCur := 1 } },
              app := () }
          = some (sa, ca) ∧
        Loop idleTasks sa = some (sa1, [c]) ∧
        Loops idleTasks
            (k + (System.tasks
              { tasks := { store := [{ handler := 5, context := 6, pNext := 0 },
                                     { handler := 7, context := 8, pNext := 1 }],
                           internals := { pHead := 2, pCur := 1 } },
                app := () }).registrations.length)
            { tasks := { store := [{ handler := 5, context := 6, pNext := 0 },
                                   { handler := 7, context := 8, pNext := 1 }],
                         internals := { pHead := 2, pCur := 1 } },
              app := () }
          = some (sb, cb) ∧
        Loop idleTasks sb = some (sb1, [c])) :=
  every_cycle_runs_each_registration_once idleTasks idleTasks_frames [(7, 8), (5, 6)]
    { tasks := { store := [{ handler := 5, context := 6, pNext := 0 },
                           { handler := 7, context := 8, pNext := 1 }],
                 internals := { pHead := 2, pCur := 1 } },
      app := () }
    (@Reachable.loop Unit idleTasks _ _ _ [(7, 8)]
      (Reachable.register 7 8 true (Reachable.register 5 6 true (Reachable.fresh ())))
      rfl)
    (by decide)

/-- C8: no scheduler operation removes or alters an existing registration.
In every reachable state a Loop call returns and leaves the registration list
(handlers, contexts, links, order) as it was, the invoked handler registering
nothing; and after any RegisterTaskHandler call the previous list is a suffix
of the new list, at most one registration having been put in front of it. -/
theorem registrations_are_never_altered {σ : Type} (exec : TaskSemantics σ)
    (hf : FramesRing exec) (hist : List Call) (s : System σ)
    (hr : Reachable exec hist s) :
    (∃ s1 calls, Loop exec s = some (s1, calls) ∧ s1.tasks.list = s.tasks.list ∧
        s1.tasks.registrations = s.tasks.registrations) ∧
      (∀ (h c : Nat) (allocOk : Bool), ∃ pre,
        (RegisterTaskHandler s.tasks h c allocOk).2.list = pre ++ s.tasks.list ∧
        (RegisterTaskHandler s.tasks h c allocOk).2.registrations
          = pre.map callOf ++ s.tasks.registrations ∧
        pre.length ≤ 1) := by
  obtain ⟨hc, _⟩ := reachable_canon hf hr
  constructor
  · obtain ⟨r, _, calls, hl, _, _, hc1, hst, _⟩ := loop_det hf s s hc rfl
    have hlist : r.tasks.list = s.tasks.list := by
      rw [canon_list hc1, canon_list hc, hst]
    refine ⟨r, calls, hl, hlist, ?_⟩
    unfold TaskRing.registrations
    rw [hlist]
  · intro h c allocOk
    have hc2 := canon_register hc h c allocOk
    rcases registerTaskHandler_cases s.tasks h c allocOk with ⟨_, _, he⟩ | ⟨_, he⟩
    · refine ⟨[{ handler := h, context := c, pNext := s.tasks.internals.pHead }], ?_, ?_, ?_⟩
      · rw [canon_list hc2, canon_list hc, he]
        simp
      · rw [canon_registrations hc2, canon_registrations hc, he]
        simp
      · simp
    · refine ⟨[], ?_, ?_, ?_⟩
      · rw [he]; rfl
      · rw [he]; rfl
      · simp

theorem registrations_are_never_altered_witness :
    (∃ s1 calls,
        Loop idleTasks { tasks := (RegisterTaskHandler TaskRing.fresh 5 6 true).2, app := () }
          = some (s1, calls) ∧
        s1.tasks.list = (RegisterTaskHandler TaskRing.fresh 5 6 true).2.list ∧
        s1.tasks.registrations = (RegisterTaskHandler TaskRing.fresh 5 6 true).2.registrations) ∧
      (∀ (h c : Nat) (allocOk : Bool), ∃ pre,
        (RegisterTaskHandler (RegisterTaskHandler TaskRing.fresh 5 6 true).2 h c allocOk).2.list
          = pre ++ (RegisterTaskHandler TaskRing.fresh 5 6 true).2.list ∧
        (RegisterTaskHandler (RegisterTaskHandler TaskRing.fresh 5 6 true).2 h c
            allocOk).2.registrations
          = pre.map callOf ++ (RegisterTaskHandler TaskRing.fresh 5 6 true).2.registrations ∧
        pre.length ≤ 1) :=
  registrations_are_never_altered idleTasks idleTasks_frames [(5, 6)]
    { tasks := (RegisterTaskHandler TaskRing.fresh 5 6 true).2, app := () }
    (Reachable.register 5 6 true (Reachable.fresh ()))

/-! ## The message bus: publish -/

theorem dispatch_spec {ω : Type} (deliver : Nat → Message → ω → ω) (m : Message) :
    ∀ (hs : List Nat) (w : ω),
      dispatch deliver m hs w =
        (hs.foldl (fun acc h => deliver h m acc) w, hs.map (fun h => (h, m))) := by
  intro hs
  induction hs with
  | nil => intro w; rfl
  | cons h rest ih =>
    intro w
    simp only [dispatch, ih, List.foldl_cons, List.map_cons]

theorem subscribeAll_subs :
    ∀ (es : List (Nat × Nat)) (mq : MessageQueue),
      (subscribeAll mq es).2.subs = mq.subs ++ es.filter (fun e => decide (e.2 ≠ NULL)) := by
  intro es
  induction es with
  | nil => intro mq; simp [subscribeAll]
  | cons e rest ih =>
    intro mq
    simp only [subscribeAll, ih]
    by_cases h : e.2 = NULL
    · simp [MessageQueue.Subscribe, h]
    · simp [MessageQueue.Subscribe, h]

/-- C10: for every message identifier, when the Subscribe calls
(messageId, handler) were made in the order `es`, one Post call for `id`
invokes the non-null handlers subscribed to `id`, s1..sK, in subscription
order, each exactly once and each with the posted payload and tags, all of
them before it returns; with K = 0 it invokes nothing and returns the state
unchanged. -/
theorem post_invokes_subscribers_in_order {ω : Type} (deliver : Nat → Message → ω → ω)
    (es : List (Nat × Nat)) (id payload : Nat) (owner : MQOwner) (context : MQContext)
    (w : ω) :
    (subscribeAll MessageQueue.empty es).2.Post deliver id payload owner context w =
        (((es.filter (fun e => decide (e.1 = id ∧ e.2 ≠ NULL))).map (fun e => e.2)).foldl
            (fun acc h => deliver h
              { messageId := id, payload := payload, owner := owner, context := context } acc) w,
         ((es.filter (fun e => decide (e.1 = id ∧ e.2 ≠ NULL))).map (fun e => e.2)).map
            (fun h => (h,
              { messageId := id, payload := payload, owner := owner, context := context }))) ∧
      ((es.filter (fun e => decide (e.1 = id ∧ e.2 ≠ NULL))) = [] →
        (subscribeAll MessageQueue.empty es).2.Post deliver id payload owner context w
          = (w, [])) := by
  have hsubs : (subscribeAll MessageQueue.empty es).2.subscribers id
      = (es.filter (fun e => decide (e.1 = id ∧ e.2 ≠ NULL))).map (fun e => e.2) := by
    unfold MessageQueue.subscribers
    rw [subscribeAll_subs]
    simp only [MessageQueue.empty, List.nil_append, List.filter_filter]
    congr 1
    apply List.filter_congr
    intro e _
    simp [and_comm]
  have hpost : (subscribeAll MessageQueue.empty es).2.Post deliver id payload owner context w =
      (((es.filter (fun e => decide (e.1 = id ∧ e.2 ≠ NULL))).map (fun e => e.2)).foldl
          (fun acc h => deliver h
            { messageId := id, payload := payload, owner := owner, context := context } acc) w,
       ((es.filter (fun e => decide (e.1 = id ∧ e.2 ≠ NULL))).map (fun e => e.2)).map
          (fun h => (h,
            { messageId := id, payload := payload, owner := owner, context := context }))) := by
    unfold MessageQueue.Post
    rw [hsubs, dispatch_spec]
  refine ⟨hpost, ?_⟩
  intro hnil
  rw [hpost, hnil]
  rfl

/-! ## The end-to-end scenario -/

theorem scenarioTasks_frames (taskA msgB X : Nat) : FramesRing (scenarioTasks taskA msgB X) := by
  intro h c s
  unfold scenarioTasks
  split <;> rfl

theorem registerAll_two (h1 c1 h2 c2 : Nat) (hh1 : h1 ≠ NULL) (hh2 : h2 ≠ NULL) :
    (registerAll TaskRing.fresh [(h1, c1, true), (h2, c2, true)]).2 =
      { store := [{ handler := h1, context := c1, pNext := 0 },
                  { handler := h2, context := c2, pNext := 1 }],
        internals := { pHead := 2, pCur := 0 } } := by
  simp [registerAll, registerTaskHandler_success, hh1, hh2, TaskRing.fresh]

theorem loop_two_first {σ : Type} {exec : TaskSemantics σ} (hf : FramesRing exec)
    (h1 c1 h2 c2 : Nat) (hh2 : h2 ≠ NULL) (a : σ) :
    Loop exec
        { tasks := { store := [{ handler := h1, context := c1, pNext := 0 },
                               { handler := h2, context := c2, pNext := 1 }],
                     internals := { pHead := 2, pCur := 0 } },
          app := a } =
      some ({ tasks := { store := [{ handler := h1, context := c1, pNext := 0 },
                                   { handler := h2, context := c2, pNext := 1 }],
                         internals := { pHead := 2, pCur := 1 } },
              app := (exec h2 c2
                { tasks := { store := [{ handler := h1, context := c1, pNext := 0 },
                                       { handler := h2, context := c2, pNext := 1 }],
                             internals := { pHead := 2, pCur := 2 } },
                  app := a }).app },
            [(h2, c2)]) :=
  loop_frames hf _ { handler := h2, context := c2, pNext := 1 }
    (by simp [TaskRing.effCur]) (by rfl) hh2

theorem loop_two_second {σ : Type} {exec : TaskSemantics σ} (hf : FramesRing exec)
    (h1 c1 h2 c2 : Nat) (hh1 : h1 ≠ NULL) (a : σ) :
    Loop exec
        { tasks := { store := [{ handler := h1, context := c1, pNext := 0 },
                               { handler := h2, context := c2, pNext := 1 }],
                     internals := { pHead := 2, pCur := 1 } },
          app := a } =
      some ({ tasks := { store := [{ handler := h1, context := c1, pNext := 0 },
                                   { handler := h2, context := c2, pNext := 1 }],
                         internals := { pHead := 2, pCur := 0 } },
              app := (exec h1 c1
                { tasks := { store := [{ handler := h1, context := c1, pNext := 0 },
                                       { handler := h2, context := c2, pNext := 1 }],
                             internals := { pHead := 2, pCur := 1 } },
                  app := a }).app },
            [(h1, c1)]) :=
  loop_frames hf _ { handler := h1, context := c1, pNext := 0 }
    (by simp [TaskRing.effCur]) (by rfl) hh1

theorem scenario_post (msgB X : Nat) (hm : msgB ≠ NULL) (seen : List Nat) :
    ((MessageQueue.empty.Subscribe X msgB).2.Post (scenarioDeliver msgB) X 1 MQOwner.caller
        MQContext.task { mq := (MessageQueue.empty.Subscribe X msgB).2, seen := seen }) =
      ({ mq := (MessageQueue.empty.Subscribe X msgB).2, seen := seen ++ [1] },
       [(msgB, { messageId := X, payload := 1, owner := MQOwner.caller,
                 context := MQContext.task })]) := by
  simp [MessageQueue.Post, MessageQueue.Subscribe, MessageQueue.empty,
    MessageQueue.subscribers, dispatch, scenarioDeliver, hm]

/-- C9: with two registered task handlers, A which posts message X with
payload 1 and B whose message handler is subscribed to X and records the
payloads it sees, two Loop calls run both tasks, one per turn; afterwards B
has observed payload 1 exactly once, and its record grew in the turn in which
A ran and in no other, whichever of the two was registered first. -/
theorem subscriber_observes_post_in_publishing_turn
    (taskA taskB msgB X ctxA ctxB : Nat) (aFirst : Bool)
    (hA : taskA ≠ NULL) (hB : taskB ≠ NULL) (hAB : taskA ≠ taskB) (hm : msgB ≠ NULL) :
    ∃ s1 s2 c1 c2,
      Loop (scenarioTasks taskA msgB X)
          (scenarioStart taskA taskB msgB X ctxA ctxB aFirst) = some (s1, [c1]) ∧
        Loop (scenarioTasks taskA msgB X) s1 = some (s2, [c2]) ∧
        Loops (scenarioTasks taskA msgB X) 2
          (scenarioStart taskA taskB msgB X ctxA ctxB aFirst) = some (s2, [c1, c2]) ∧
        (scenarioStart taskA taskB msgB X ctxA ctxB aFirst).app.seen = [] ∧
        s2.app.seen = [1] ∧
        s1.app.seen = (if c1.1 = taskA then [1] else []) ∧
        s2.app.seen = s1.app.seen ++ (if c2.1 = taskA then [1] else []) ∧
        ((c1 = (taskA, ctxA) ∧ c2 = (taskB, ctxB)) ∨
          (c1 = (taskB, ctxB) ∧ c2 = (taskA, ctxA))) := by
  have hf := scenarioTasks_frames taskA msgB X
  have hBA : taskB ≠ taskA := fun h => hAB h.symm
  cases aFirst with
  | true =>
    have h1 := loop_two_first hf taskA ctxA taskB ctxB hB
      { mq := (MessageQueue.empty.Subscribe X msgB).2, seen := [] }
    have h2 := loop_two_second hf taskA ctxA taskB ctxB hA
      { mq := (MessageQueue.empty.Subscribe X msgB).2, seen := [] }
    simp only [scenarioTasks, hBA, if_false, if_true, scenario_post msgB X hm,
      List.nil_append] at h1 h2
    refine ⟨_, _, (taskB, ctxB), (taskA, ctxA), ?_, h2, ?_, rfl, ?_, ?_, ?_, Or.inr ⟨rfl, rfl⟩⟩
    · simp only [scenarioStart, if_true, registerAll_two taskA ctxA taskB ctxB hA hB]
      exact h1
    · simp only [scenarioStart, if_true, registerAll_two taskA ctxA taskB ctxB hA hB, Loops,
        h1, h2]
      rfl
    · rfl
    · simp [hBA]
    · simp [hBA]
  | false =>
    have h1 := loop_two_first hf taskB ctxB taskA ctxA hA
      { mq := (MessageQueue.empty.Subscribe X msgB).2, seen := [] }
    have h2 := loop_two_second hf taskB ctxB taskA ctxA hB
      { mq := (MessageQueue.empty.Subscribe X msgB).2, seen := [1] }
    simp only [scenarioTasks, hBA, if_false, if_true, scenario_post msgB X hm,
      List.nil_append] at h1 h2
    refine ⟨_, _, (taskA, ctxA), (taskB, ctxB), ?_, h2, ?_, rfl, ?_, ?_, ?_, Or.inl ⟨rfl, rfl⟩⟩
    · simp only [scenarioStart, Bool.false_eq_true, if_false,
        registerAll_two taskB ctxB taskA ctxA hB hA]
      exact h1
    · simp only [scenarioStart, Bool.false_eq_true, if_false,
        registerAll_two taskB ctxB taskA ctxA hB hA, Loops, h1, h2]
      rfl
    · rfl
    · simp
    · simp [hBA]

theorem subscriber_observes_post_in_publishing_turn_witness :
    ∃ s1 s2 c1 c2,
      Loop (scenarioTasks 100 40 2) (scenarioStart 100 200 40 2 0 9 true) = some (s1, [c1]) ∧
        Loop (scenarioTasks 100 40 2) s1 = some (s2, [c2]) ∧
        Loops (scenarioTasks 100 40 2) 2 (scenarioStart 100 200 40 2 0 9 true)
          = some (s2, [c1, c2]) ∧
        (scenarioStart 100 200 40 2 0 9 true).app.seen = [] ∧
        s2.app.seen = [1] ∧
        s1.app.seen = (if c1.1 = 100 then [1] else []) ∧
        s2.app.seen = s1.app.seen ++ (if c2.1 = 100 then [1] else []) ∧
        ((c1 = (100, 0) ∧ c2 = (200, 9)) ∨ (c1 = (200, 9) ∧ c2 = (100, 0))) :=
  subscriber_observes_post_in_publishing_turn 100 200 40 2 0 9 true
    (by decide) (by decide) (by decide) (by decide)

/-! ## The task ring: invariants and registration in mid-cycle -/

theorem chainPtrs_canon (store : List TASKSTATE)
    (hn : ∀ (i : Nat) (t : TASKSTATE), store[i]? = some t → t.pNext = i) :
    ∀ (fuel p : Nat), p ≤ fuel → p ≤ store.length →
      ∀ q, q ∈ chainPtrs store fuel p ↔ (1 ≤ q ∧ q ≤ p) := by
  intro fuel
  induction fuel with
  | zero =>
    intro p hp _ q
    have : p = 0 := Nat.le_zero.mp hp
    subst this
    simp only [chainPtrs, List.not_mem_nil, false_iff]
    omega
  | succ n ih =>
    intro p hp hl q
    cases p with
    | zero =>
      simp only [chainPtrs, deref, if_true, List.not_mem_nil, false_iff]
      omega
    | succ r =>
      have hr : r < store.length := hl
      have hget : store[r]? = some store[r] := List.getElem?_eq_getElem hr
      have hd : deref store (r + 1) = some store[r] := by
        simp [deref, hget]
      simp only [chainPtrs, hd, List.mem_cons]
      rw [hn r _ hget, ih r (Nat.le_of_succ_le_succ hp) (Nat.le_of_lt hr) q]
      omega

/-- C13: in every state reachable from a fresh TaskRing by RegisterTaskHandler
and Loop calls, the cursor is either unset or the address of one of the
registrations currently in the list, and every registration in the list has a
non-null handler; hence Loop returns without calling through a null or
dangling pointer, and whatever it calls is a non-null handler that was
registered, with the context it was registered with. -/
theorem reachable_ring_invariant {σ : Type} (exec : TaskSemantics σ)
    (hf : FramesRing exec) (hist : List Call) (s : System σ)
    (hr : Reachable exec hist s) :
    (s.tasks.internals.pCur = NULL ∨ s.tasks.internals.pCur ∈ s.tasks.listPtrs) ∧
      (∀ t ∈ s.tasks.list, t.handler ≠ NULL) ∧
      (∃ s1 calls, Loop exec s = some (s1, calls) ∧
        ∀ c ∈ calls, c.1 ≠ NULL ∧ c ∈ hist ∧ c ∈ s.tasks.registrations) := by
  obtain ⟨hc, hreg⟩ := reachable_canon hf hr
  refine ⟨?_, ?_, ?_⟩
  · by_cases hz : s.tasks.internals.pCur = NULL
    · exact Or.inl hz
    · right
      have hcur := hc.cur
      have hpos : 1 ≤ s.tasks.internals.pCur := Nat.pos_of_ne_zero hz
      unfold TaskRing.listPtrs
      rw [chainPtrs_canon s.tasks.store hc.next _ _ (by rw [hc.head]) (by rw [hc.head]),
        hc.head]
      omega
  · intro t ht
    rw [canon_list hc, List.mem_reverse] at ht
    exact hc.handlers t ht
  · by_cases hne : s.tasks.store = []
    · have hh : s.tasks.internals.pHead = NULL := by rw [hc.head, hne]; rfl
      have hcur : s.tasks.internals.pCur = NULL := by
        have := hc.cur
        rw [hne] at this
        exact Nat.le_zero.mp this
      exact ⟨s, [], loop_idle exec s hh hcur, fun c hcm => absurd hcm (List.not_mem_nil c)⟩
    · obtain ⟨t, hget, _, hloop⟩ := loop_canon hf s hc hne
      refine ⟨_, _, hloop, ?_⟩
      intro c hcm
      rw [List.mem_singleton] at hcm
      subst hcm
      have hmem : t ∈ s.tasks.store := List.getElem?_mem hget
      have hin : callOf t ∈ s.tasks.registrations := by
        rw [canon_registrations hc]
        exact List.mem_map.mpr ⟨t, List.mem_reverse.mpr hmem, rfl⟩
      exact ⟨hc.handlers t hmem, by rw [← hreg]; exact hin, hin⟩

theorem midCycleExample_reachable :
    Reachable idleTasks [(7, 8), (5, 6)] midCycleExample :=
  @Reachable.loop Unit idleTasks _ _ _ [(7, 8)]
    (Reachable.register 7 8 true (Reachable.register 5 6 true (Reachable.fresh ())))
    rfl

theorem reachable_ring_invariant_witness :
    (midCycleExample.tasks.internals.pCur = NULL ∨
        midCycleExample.tasks.internals.pCur ∈ midCycleExample.tasks.listPtrs) ∧
      (∀ t ∈ midCycleExample.tasks.list, t.handler ≠ NULL) ∧
      (∃ s1 calls, Loop idleTasks midCycleExample = some (s1, calls) ∧
        ∀ c ∈ calls, c.1 ≠ NULL ∧ c ∈ [(7, 8), (5, 6)] ∧
          c ∈ midCycleExample.tasks.registrations) :=
  reachable_ring_invariant idleTasks idleTasks_frames [(7, 8), (5, 6)] midCycleExample
    midCycleExample_reachable

theorem canon_remaining {tr : TaskRing} (hc : Canon tr) :
    tr.remaining = (tr.store.take tr.internals.pCur).reverse := by
  have hcur := hc.cur
  unfold TaskRing.remaining
  exact chain_canon tr.store hc.next _ _ (by omega) (by omega)

/-- C12: when RegisterTaskHandler succeeds in a reachable state, the cursor is
unchanged.  If the cursor is set (the ring is in the middle of a cycle), the
registrations that remained in the current cycle, a suffix of the old list
ending with its last registration, are invoked first, in their existing
order, and the new registration is invoked on the turn immediately after;
if the cursor is unset, the new registration is invoked on the very next
turn. -/
theorem registration_in_mid_cycle {σ : Type} (exec : TaskSemantics σ)
    (hf : FramesRing exec) (hist : List Call) (s : System σ)
    (hr : Reachable exec hist s) (h c : Nat) (hh : h ≠ NULL) :
    (RegisterTaskHandler s.tasks h c true).1 = 0 ∧
      (RegisterTaskHandler s.tasks h c true).2.internals.pCur = s.tasks.internals.pCur ∧
      (s.tasks.internals.pCur ≠ NULL →
        ∃ pre s3 s4,
          s.tasks.list = pre ++ s.tasks.remaining ∧ s.tasks.remaining ≠ [] ∧
          Loops exec s.tasks.remaining.length
              { tasks := (RegisterTaskHandler s.tasks h c true).2, app := s.app } =
            some (s3, s.tasks.remaining.map callOf) ∧
          Loop exec s3 = some (s4, [(h, c)])) ∧
      (s.tasks.internals.pCur = NULL →
        ∃ s3, Loop exec { tasks := (RegisterTaskHandler s.tasks h c true).2, app := s.app } =
          some (s3, [(h, c)])) := by
  obtain ⟨hc, _⟩ := reachable_canon hf hr
  have hc2 := canon_register hc h c true
  have hcur := hc.cur
  have hsucc := registerTaskHandler_success s.tasks h c hh
  have hstore : (RegisterTaskHandler s.tasks h c true).2.store =
      s.tasks.store ++ [{ handler := h, context := c, pNext := s.tasks.internals.pHead }] := by
    rw [hsucc]
  have hpc : (RegisterTaskHandler s.tasks h c true).2.internals.pCur
      = s.tasks.internals.pCur := by rw [hsucc]
  have hph : (RegisterTaskHandler s.tasks h c true).2.internals.pHead
      = s.tasks.store.length + 1 := by rw [hsucc]
  have hne2 : (RegisterTaskHandler s.tasks h c true).2.store ≠ [] := by
    rw [hstore]; simp
  -- a Loop call at the head of the new ring invokes the new registration
  have hhead : ∀ (x : System σ), x.tasks.store = (RegisterTaskHandler s.tasks h c true).2.store →
      x.tasks.internals.pHead = s.tasks.store.length + 1 → x.tasks.internals.pCur = NULL →
      Canon x.tasks → ∃ y, Loop exec x = some (y, [(h, c)]) := by
    intro x hxs hxh hxc hcx
    obtain ⟨t, hget, _, hloop⟩ := loop_canon hf x hcx (by rw [hxs]; exact hne2)
    have heff : x.tasks.effCur = s.tasks.store.length + 1 := by
      unfold TaskRing.effCur
      rw [if_pos hxc, hxh]
    rw [heff, hxs, hstore] at hget
    simp at hget
    subst hget
    exact ⟨_, hloop⟩
  refine ⟨by rw [hsucc], hpc, ?_, ?_⟩
  · intro hnz
    have hpos : 1 ≤ s.tasks.internals.pCur := Nat.pos_of_ne_zero hnz
    have hrem := canon_remaining hc
    have hlen : s.tasks.remaining.length = s.tasks.internals.pCur := by
      rw [hrem, List.length_reverse, List.length_take]
      omega
    obtain ⟨s3, hl3, ht3⟩ := loops_down hf s.tasks.internals.pCur
      { tasks := (RegisterTaskHandler s.tasks h c true).2, app := s.app } hc2
      (by rw [hpc])
    simp only [hpc, hstore, Nat.sub_self] at hl3 ht3
    rw [List.take_append_of_le_length (by omega)] at hl3
    have htk : List.take s.tasks.internals.pCur
        (List.take s.tasks.internals.pCur s.tasks.store).reverse
        = (List.take s.tasks.internals.pCur s.tasks.store).reverse :=
      List.take_of_length_le (by simp)
    rw [htk, ← hrem] at hl3
    have hc3 : Canon s3.tasks := by
      rw [ht3]; exact canon_withCur hc2 0 (Nat.zero_le _)
    obtain ⟨s4, hl4⟩ := hhead s3 (by rw [ht3]; rfl) (by rw [ht3]; exact hph)
      (by rw [ht3]; rfl) hc3
    refine ⟨(s.tasks.store.drop s.tasks.internals.pCur).reverse, s3, s4, ?_, ?_, ?_, hl4⟩
    · rw [canon_list hc, hrem, ← List.reverse_append, List.take_append_drop]
    · intro hnil
      rw [hnil] at hlen
      simp at hlen
      omega
    · rw [hlen]
      exact hl3
  · intro hz
    exact hhead _ rfl hph (by rw [hpc]; exact hz) hc2

theorem registration_in_mid_cycle_witness :
    (RegisterTaskHandler midCycleExample.tasks 9 4 true).1 = 0 ∧
      (RegisterTaskHandler midCycleExample.tasks 9 4 true).2.internals.pCur
        = midCycleExample.tasks.internals.pCur ∧
      (midCycleExample.tasks.internals.pCur ≠ NULL →
        ∃ pre s3 s4,
          midCycleExample.tasks.list = pre ++ midCycleExample.tasks.remaining ∧
          midCycleExample.tasks.remaining ≠ [] ∧
          Loops idleTasks midCycleExample.tasks.remaining.length
              { tasks := (RegisterTaskHandler midCycleExample.tasks 9 4 true).2,
                app := midCycleExample.app } =
            some (s3, midCycleExample.tasks.remaining.map callOf) ∧
          Loop idleTasks s3 = some (s4, [(9, 4)])) ∧
      (midCycleExample.tasks.internals.pCur = NULL →
        ∃ s3, Loop idleTasks
            { tasks := (RegisterTaskHandler midCycleExample.tasks 9 4 true).2,
              app := midCycleExample.app } =
          some (s3, [(9, 4)])) :=
  registration_in_mid_cycle idleTasks idleTasks_frames [(7, 8), (5, 6)] midCycleExample
    midCycleExample_reachable 9 4 (by decide)

/-! ## The software timer -/

/-- C11: an OSTimer constructed, or Set, with duration D at time t0 reports
isExpired() = false for every query made strictly before D milliseconds have
elapsed and true for every query made at or after D; once it reports true it
keeps reporting true on every later query, and a further Set re-arms it
relative to the time of that call. -/
theorem timer_expires_after_duration (t0 D e later t1 D2 e2 : Nat) (old : OSTimer) :
    (OSTimer.new t0 D).isExpired (t0 + e) = decide (D ≤ e) ∧
      (old.Set t0 D).isExpired (t0 + e) = decide (D ≤ e) ∧
      ((OSTimer.new t0 D).isExpired (t0 + e) = true →
        (OSTimer.new t0 D).isExpired (t0 + e + later) = true) ∧
      ((old.Set t0 D).isExpired (t0 + e) = true →
        (old.Set t0 D).isExpired (t0 + e + later) = true) ∧
      (((OSTimer.new t0 D).Set t1 D2).isExpired (t1 + e2) = decide (D2 ≤ e2)) := by
  simp only [OSTimer.new, OSTimer.Set, OSTimer.isExpired, decide_eq_true_eq,
    Nat.add_le_add_iff_left, decide_eq_decide]
  refine ⟨trivial, trivial, ?_, ?_, trivial⟩ <;> intro h <;> omega

/-! ## The control module: counters driven by timers -/

theorem payloadsOf_append (id : Nat) (a b : List Message) :
    payloadsOf id (a ++ b) = payloadsOf id a ++ payloadsOf id b := by
  simp [payloadsOf]

theorem range_map_shift {β : Type} (c : Nat → β) (m : Nat) :
    c 0 :: (List.range m).map (fun j => c (j + 1)) = (List.range (m + 1)).map c := by
  rw [List.range_succ_eq_map, List.map_cons, List.map_map]
  rfl

theorem runCalls_fired {ι S α : Type} (step : ι → S → S × List Message)
    (fires : ι → S → Bool) (obs : List Message → List Nat)
    (hobs : ∀ a b, obs (a ++ b) = obs a ++ obs b)
    (cnt : S → α) (f : α → α) (g : α → Nat)
    (hstep : ∀ i s,
      (fires i s = true → obs (step i s).2 = [g (cnt s)] ∧ cnt (step i s).1 = f (cnt s)) ∧
      (fires i s = false → obs (step i s).2 = [] ∧ cnt (step i s).1 = cnt s)) :
    ∀ (is : List ι) (s : S),
      obs (runCalls step is s).2 =
        (List.range (firings step fires is s)).map (fun j => g (f^[j] (cnt s))) ∧
      cnt (runCalls step is s).1 = f^[firings step fires is s] (cnt s) := by
  have hnil : obs [] = [] := by
    have h := hobs [] []
    rw [List.append_nil] at h
    have hl := congrArg List.length h
    rw [List.length_append] at hl
    exact List.length_eq_zero.mp (by omega)
  intro is
  induction is with
  | nil =>
    intro s
    exact ⟨by simp [runCalls, firings, hnil], rfl⟩
  | cons i rest ih =>
    intro s
    obtain ⟨hobs2, hcnt2⟩ := ih (step i s).1
    obtain ⟨hyes, hno⟩ := hstep i s
    cases hf : fires i s with
    | false =>
      obtain ⟨h1, h2⟩ := hno hf
      refine ⟨?_, ?_⟩
      · simp only [runCalls, firings, hf, hobs, h1, List.nil_append, hobs2, h2,
          Bool.false_eq_true, if_false, Nat.zero_add]
      · simp only [runCalls, firings, hf, hcnt2, h2, Bool.false_eq_true, if_false,
          Nat.zero_add]
    | true =>
      obtain ⟨h1, h2⟩ := hyes hf
      refine ⟨?_, ?_⟩
      · simp only [runCalls, firings, hf, hobs, h1, hobs2, h2, List.singleton_append,
          if_true]
        rw [Nat.add_comm 1]
        exact range_map_shift (fun j => g (f^[j] (cnt s)))
          (firings step fires rest (step i s).1)
      · simp only [runCalls, firings, hf, hcnt2, h2, if_true]
        rw [Nat.add_comm 1]
        rfl

/-- The statement `ledstate=(ledstate==1)?0:1;`. -/
theorem ledFlip_iterate (j : Nat) :
    (fun x : Int => if x = 1 then 0 else 1)^[j] 0 = ((j % 2 : Nat) : Int) := by
  induction j with
  | zero => rfl
  | succ n ih =>
    rw [Function.iterate_succ_apply', ih]
    have h2 : n % 2 = 0 ∨ n % 2 = 1 := by omega
    rcases h2 with h | h
    · have h3 : (n + 1) % 2 = 1 := by omega
      rw [h, h3]; rfl
    · have h3 : (n + 1) % 2 = 0 := by omega
      rw [h, h3]; rfl

theorem ledPayload_iterate (j : Nat) :
    ptrOfInt (if (fun x : Int => if x = 1 then 0 else 1)^[j] 0 = 1 then 0 else 1)
      = (j + 1) % 2 := by
  rw [ledFlip_iterate]
  have h2 : j % 2 = 0 ∨ j % 2 = 1 := by omega
  rcases h2 with h | h
  · have h3 : (j + 1) % 2 = 1 := by omega
    rw [h, h3]; rfl
  · have h3 : (j + 1) % 2 = 0 := by omega
    rw [h, h3]; rfl


theorem part1_led_step (now : Nat) (s : Part1.ControlState) :
    (s.LEDTimer.isExpired now = true →
        (Part1.ControlTask now s).1.ledstate = (if s.ledstate = 1 then 0 else 1) ∧
        payloadsOf Part1.MSG_ID_CHANGE_LED (Part1.ControlTask now s).2
          = [ptrOfInt (if s.ledstate = 1 then 0 else 1)] ∧
        (Part1.ControlTask now s).1.LEDTimer = s.LEDTimer.Set now 750) ∧
      (s.LEDTimer.isExpired now = false →
        (Part1.ControlTask now s).1.ledstate = s.ledstate ∧
        payloadsOf Part1.MSG_ID_CHANGE_LED (Part1.ControlTask now s).2 = [] ∧
        (Part1.ControlTask now s).1.LEDTimer = s.LEDTimer) := by
  unfold Part1.ControlTask
  by_cases h1 : s.LEDTimer.isExpired now = true <;>
    by_cases h2 : s.SevenSegTimer.isExpired now = true <;>
    simp [h1, h2, payloadsOf, taskPost, Part1.MSG_ID_CHANGE_LED, Part1.MSG_ID_CHANGE_7SEG]

theorem part3_led_step (k : Part3.Common) (hk : k.MSG_ID_CHANGE_LED ≠ k.MSG_ID_NEW_ACTUAL_RPM)
    (now : Nat) (s : Part3.ControlState) :
    (s.LEDTimer.isExpired now = true →
        (Part3.ControlTask k now s).1.ledstate = (if s.ledstate = 1 then 0 else 1) ∧
        payloadsOf k.MSG_ID_CHANGE_LED (Part3.ControlTask k now s).2
          = [ptrOfInt (if s.ledstate = 1 then 0 else 1)] ∧
        (Part3.ControlTask k now s).1.LEDTimer = s.LEDTimer.Set now 750) ∧
      (s.LEDTimer.isExpired now = false →
        (Part3.ControlTask k now s).1.ledstate = s.ledstate ∧
        payloadsOf k.MSG_ID_CHANGE_LED (Part3.ControlTask k now s).2 = [] ∧
        (Part3.ControlTask k now s).1.LEDTimer = s.LEDTimer) := by
  have hk2 : ¬ k.MSG_ID_NEW_ACTUAL_RPM = k.MSG_ID_CHANGE_LED := fun h => hk h.symm
  unfold Part3.ControlTask
  by_cases h1 : s.LEDTimer.isExpired now = true <;>
    by_cases h2 : s.TestRPMTimer.isExpired now = true <;>
    simp [h1, h2, payloadsOf, taskPost, hk2]

theorem part4_led_step (k : Part4.Common) (hk : k.MSG_ID_CHANGE_LED ≠ k.MSG_ID_NEW_ACTUAL_RPS)
    (now : Nat) (s : Part4.ControlState) :
    (s.LEDTimer.isExpired now = true →
        (Part4.ControlTask k now s).1.ledstate = (if s.ledstate = 1 then 0 else 1) ∧
        payloadsOf k.MSG_ID_CHANGE_LED (Part4.ControlTask k now s).2
          = [ptrOfInt (if s.ledstate = 1 then 0 else 1)] ∧
        (Part4.ControlTask k now s).1.LEDTimer = s.LEDTimer.Set now 750) ∧
      (s.LEDTimer.isExpired now = false →
        (Part4.ControlTask k now s).1.ledstate = s.ledstate ∧
        payloadsOf k.MSG_ID_CHANGE_LED (Part4.ControlTask k now s).2 = [] ∧
        (Part4.ControlTask k now s).1.LEDTimer = s.LEDTimer) := by
  have hk2 : ¬ k.MSG_ID_NEW_ACTUAL_RPS = k.MSG_ID_CHANGE_LED := fun h => hk h.symm
  unfold Part4.ControlTask
  by_cases h1 : s.LEDTimer.isExpired now = true <;>
    by_cases h2 : s.TestRPSTimer.isExpired now = true <;>
    simp [h1, h2, payloadsOf, taskPost, hk2]

theorem led_alternation {ι S : Type} (step : ι → S → S × List Message)
    (fires : ι → S → Bool) (id : Nat) (led : S → Int)
    (hstep : ∀ i s,
      (fires i s = true →
        payloadsOf id (step i s).2 = [ptrOfInt (if led s = 1 then 0 else 1)] ∧
        led (step i s).1 = (if led s = 1 then 0 else 1)) ∧
      (fires i s = false → payloadsOf id (step i s).2 = [] ∧ led (step i s).1 = led s))
    (is : List ι) (s : S) (h0 : led s = 0) :
    (led (runCalls step is s).1 = 0 ∨ led (runCalls step is s).1 = 1) ∧
      led (runCalls step is s).1 = ((firings step fires is s % 2 : Nat) : Int) ∧
      payloadsOf id (runCalls step is s).2 =
        (List.range (firings step fires is s)).map (fun j => (j + 1) % 2) := by
  obtain ⟨hobs, hcnt⟩ := runCalls_fired step fires (payloadsOf id) (payloadsOf_append id)
    led (fun x : Int => if x = 1 then 0 else 1)
    (fun x : Int => ptrOfInt (if x = 1 then 0 else 1)) hstep is s
  rw [h0] at hobs hcnt
  rw [ledFlip_iterate] at hcnt
  refine ⟨?_, hcnt, ?_⟩
  · rw [hcnt]
    have h2 : firings step fires is s % 2 = 0 ∨ firings step fires is s % 2 = 1 := by omega
    rcases h2 with h | h
    · left; rw [h]; rfl
    · right; rw [h]; rfl
  · rw [hobs]
    apply List.map_congr_left
    intro j _
    exact ledPayload_iterate j

/-- C14: ControlTask (in each of its three versions) flips ledstate each time
it finds the LED timer expired, and only then.  In every state, a call that
finds the LED timer expired changes ledstate from 1 to 0 and from any other
value to 1, posts exactly one MSG_ID_CHANGE_LED message, whose payload is the
new ledstate, and re-arms the timer for 750 ms; a call that finds it not
expired leaves ledstate and the timer alone and posts no MSG_ID_CHANGE_LED
message.  Hence, after any sequence of calls that follows CONTROLInitialize,
made at any times, with n the number of those calls that found the LED timer
expired: ledstate is 0 or 1 (it is n mod 2), exactly n MSG_ID_CHANGE_LED
messages have been posted, and the j-th of them (j = 1, ..., n) carries
payload j mod 2, which is 1 when j is odd and 0 when j is even.  In parts 3
and 4 the message identifiers come from a header that is not among the
sources; the LED identifier is taken to differ from that of the other message
ControlTask posts. -/
theorem led_messages_alternate (k3 : Part3.Common) (k4 : Part4.Common)
    (h3 : k3.MSG_ID_CHANGE_LED ≠ k3.MSG_ID_NEW_ACTUAL_RPM)
    (h4 : k4.MSG_ID_CHANGE_LED ≠ k4.MSG_ID_NEW_ACTUAL_RPS)
    (t0 : Nat) (ts : List Nat) :
    ((∀ (now : Nat) (s : Part1.ControlState),
        (s.LEDTimer.isExpired now = true →
          (Part1.ControlTask now s).1.ledstate = (if s.ledstate = 1 then 0 else 1) ∧
          payloadsOf Part1.MSG_ID_CHANGE_LED (Part1.ControlTask now s).2
            = [ptrOfInt (if s.ledstate = 1 then 0 else 1)] ∧
          (Part1.ControlTask now s).1.LEDTimer = s.LEDTimer.Set now 750) ∧
        (s.LEDTimer.isExpired now = false →
          (Part1.ControlTask now s).1.ledstate = s.ledstate ∧
          payloadsOf Part1.MSG_ID_CHANGE_LED (Part1.ControlTask now s).2 = [] ∧
          (Part1.ControlTask now s).1.LEDTimer = s.LEDTimer)) ∧
      ((runCalls Part1.ControlTask ts (Part1.CONTROLInitialize t0)).1.ledstate = 0 ∨
        (runCalls Part1.ControlTask ts (Part1.CONTROLInitialize t0)).1.ledstate = 1) ∧
      (runCalls Part1.ControlTask ts (Part1.CONTROLInitialize t0)).1.ledstate =
        ((firings Part1.ControlTask (fun now s => s.LEDTimer.isExpired now) ts
          (Part1.CONTROLInitialize t0) % 2 : Nat) : Int) ∧
      payloadsOf Part1.MSG_ID_CHANGE_LED
          (runCalls Part1.ControlTask ts (Part1.CONTROLInitialize t0)).2 =
        (List.range (firings Part1.ControlTask (fun now s => s.LEDTimer.isExpired now) ts
          (Part1.CONTROLInitialize t0))).map (fun j => (j + 1) % 2)) ∧
    ((∀ (now : Nat) (s : Part3.ControlState),
        (s.LEDTimer.isExpired now = true →
          (Part3.ControlTask k3 now s).1.ledstate = (if s.ledstate = 1 then 0 else 1) ∧
          payloadsOf k3.MSG_ID_CHANGE_LED (Part3.ControlTask k3 now s).2
            = [ptrOfInt (if s.ledstate = 1 then 0 else 1)] ∧
          (Part3.ControlTask k3 now s).1.LEDTimer = s.LEDTimer.Set now 750) ∧
        (s.LEDTimer.isExpired now = false →
          (Part3.ControlTask k3 now s).1.ledstate = s.ledstate ∧
          payloadsOf k3.MSG_ID_CHANGE_LED (Part3.ControlTask k3 now s).2 = [] ∧
          (Part3.ControlTask k3 now s).1.LEDTimer = s.LEDTimer)) ∧
      ((runCalls (Part3.ControlTask k3) ts (Part3.CONTROLInitialize t0)).1.ledstate = 0 ∨
        (runCalls (Part3.ControlTask k3) ts (Part3.CONTROLInitialize t0)).1.ledstate = 1) ∧
      (runCalls (Part3.ControlTask k3) ts (Part3.CONTROLInitialize t0)).1.ledstate =
        ((firings (Part3.ControlTask k3) (fun now s => s.LEDTimer.isExpired now) ts
          (Part3.CONTROLInitialize t0) % 2 : Nat) : Int) ∧
      payloadsOf k3.MSG_ID_CHANGE_LED
          (runCalls (Part3.ControlTask k3) ts (Part3.CONTROLInitialize t0)).2 =
        (List.range (firings (Part3.ControlTask k3) (fun now s => s.LEDTimer.isExpired now) ts
          (Part3.CONTROLInitialize t0))).map (fun j => (j + 1) % 2)) ∧
    ((∀ (now : Nat) (s : Part4.ControlState),
        (s.LEDTimer.isExpired now = true →
          (Part4.ControlTask k4 now s).1.ledstate = (if s.ledstate = 1 then 0 else 1) ∧
          payloadsOf k4.MSG_ID_CHANGE_LED (Part4.ControlTask k4 now s).2
            = [ptrOfInt (if s.ledstate = 1 then 0 else 1)] ∧
          (Part4.ControlTask k4 now s).1.LEDTimer = s.LEDTimer.Set now 750) ∧
        (s.LEDTimer.isExpired now = false →
          (Part4.ControlTask k4 now s).1.ledstate = s.ledstate ∧
          payloadsOf k4.MSG_ID_CHANGE_LED (Part4.ControlTask k4 now s).2 = [] ∧
          (Part4.ControlTask k4 now s).1.LEDTimer = s.LEDTimer)) ∧
      ((runCalls (Part4.ControlTask k4) ts (Part4.CONTROLInitialize k4 t0)).1.ledstate = 0 ∨
        (runCalls (Part4.ControlTask k4) ts (Part4.CONTROLInitialize k4 t0)).1.ledstate = 1) ∧
      (runCalls (Part4.ControlTask k4) ts (Part4.CONTROLInitialize k4 t0)).1.ledstate =
        ((firings (Part4.ControlTask k4) (fun now s => s.LEDTimer.isExpired now) ts
          (Part4.CONTROLInitialize k4 t0) % 2 : Nat) : Int) ∧
      payloadsOf k4.MSG_ID_CHANGE_LED
          (runCalls (Part4.ControlTask k4) ts (Part4.CONTROLInitialize k4 t0)).2 =
        (List.range (firings (Part4.ControlTask k4) (fun now s => s.LEDTimer.isExpired now) ts
          (Part4.CONTROLInitialize k4 t0))).map (fun j => (j + 1) % 2)) := by
  obtain ⟨a1, a2, a3⟩ := led_alternation Part1.ControlTask
    (fun now s => s.LEDTimer.isExpired now) Part1.MSG_ID_CHANGE_LED (fun s => s.ledstate)
    (fun now s => ⟨fun h => ⟨((part1_led_step now s).1 h).2.1, ((part1_led_step now s).1 h).1⟩,
      fun h => ⟨((part1_led_step now s).2 h).2.1, ((part1_led_step now s).2 h).1⟩⟩)
    ts (Part1.CONTROLInitialize t0) rfl
  obtain ⟨b1, b2, b3⟩ := led_alternation (Part3.ControlTask k3)
    (fun now s => s.LEDTimer.isExpired now) k3.MSG_ID_CHANGE_LED (fun s => s.ledstate)
    (fun now s => ⟨fun h => ⟨((part3_led_step k3 h3 now s).1 h).2.1,
        ((part3_led_step k3 h3 now s).1 h).1⟩,
      fun h => ⟨((part3_led_step k3 h3 now s).2 h).2.1, ((part3_led_step k3 h3 now s).2 h).1⟩⟩)
    ts (Part3.CONTROLInitialize t0) rfl
  obtain ⟨c1, c2, c3⟩ := led_alternation (Part4.ControlTask k4)
    (fun now s => s.LEDTimer.isExpired now) k4.MSG_ID_CHANGE_LED (fun s => s.ledstate)
    (fun now s => ⟨fun h => ⟨((part4_led_step k4 h4 now s).1 h).2.1,
        ((part4_led_step k4 h4 now s).1 h).1⟩,
      fun h => ⟨((part4_led_step k4 h4 now s).2 h).2.1, ((part4_led_step k4 h4 now s).2 h).1⟩⟩)
    ts (Part4.CONTROLInitialize k4 t0) rfl
  exact ⟨⟨part1_led_step, a1, a2, a3⟩, ⟨part3_led_step k3 h3, b1, b2, b3⟩,
    ⟨part4_led_step k4 h4, c1, c2, c3⟩⟩

theorem led_messages_alternate_witness :
    (exampleCommon3.MSG_ID_CHANGE_LED ≠ exampleCommon3.MSG_ID_NEW_ACTUAL_RPM ∧
      exampleCommon4.MSG_ID_CHANGE_LED ≠ exampleCommon4.MSG_ID_NEW_ACTUAL_RPS) ∧
    (
      ((∀ (now : Nat) (s : Part1.ControlState),
          (s.LEDTimer.isExpired now = true →
            (Part1.ControlTask now s).1.ledstate = (if s.ledstate = 1 then 0 else 1) ∧
            payloadsOf Part1.MSG_ID_CHANGE_LED (Part1.ControlTask now s).2
              = [ptrOfInt (if s.ledstate = 1 then 0 else 1)] ∧
            (Part1.ControlTask now s).1.LEDTimer = s.LEDTimer.Set now 750) ∧
          (s.LEDTimer.isExpired now = false →
            (Part1.ControlTask now s).1.ledstate = s.ledstate ∧
            payloadsOf Part1.MSG_ID_CHANGE_LED (Part1.ControlTask now s).2 = [] ∧
            (Part1.ControlTask now s).1.LEDTimer = s.LEDTimer)) ∧
        ((runCalls Part1.ControlTask exampleTimes (Part1.CONTROLInitialize 0)).1.ledstate = 0 ∨
          (runCalls Part1.ControlTask exampleTimes (Part1.CONTROLInitialize 0)).1.ledstate = 1) ∧
        (runCalls Part1.ControlTask exampleTimes (Part1.CONTROLInitialize 0)).1.ledstate =
          ((firings Part1.ControlTask (fun now s => s.LEDTimer.isExpired now) exampleTimes
            (Part1.CONTROLInitialize 0) % 2 : Nat) : Int) ∧
        payloadsOf Part1.MSG_ID_CHANGE_LED
            (runCalls Part1.ControlTask exampleTimes (Part1.CONTROLInitialize 0)).2 =
          (List.range (firings Part1.ControlTask (fun now s => s.LEDTimer.isExpired now) exampleTimes
            (Part1.CONTROLInitialize 0))).map (fun j => (j + 1) % 2)) ∧
      ((∀ (now : Nat) (s : Part3.ControlState),
          (s.LEDTimer.isExpired now = true →
            (Part3.ControlTask exampleCommon3 now s).1.ledstate = (if s.ledstate = 1 then 0 else 1) ∧
            payloadsOf exampleCommon3.MSG_ID_CHANGE_LED (Part3.ControlTask exampleCommon3 now s).2
              = [ptrOfInt (if s.ledstate = 1 then 0 else 1)] ∧
            (Part3.ControlTask exampleCommon3 now s).1.LEDTimer = s.LEDTimer.Set now 750) ∧
          (s.LEDTimer.isExpired now = false →
            (Part3.ControlTask exampleCommon3 now s).1.ledstate = s.ledstate ∧
            payloadsOf exampleCommon3.MSG_ID_CHANGE_LED (Part3.ControlTask exampleCommon3 now s).2 = [] ∧
            (Part3.ControlTask exampleCommon3 now s).1.LEDTimer = s.LEDTimer)) ∧
        ((runCalls (Part3.ControlTask exampleCommon3) exampleTimes (Part3.CONTROLInitialize 0)).1.ledstate = 0 ∨
          (runCalls (Part3.ControlTask exampleCommon3) exampleTimes (Part3.CONTROLInitialize 0)).1.ledstate = 1) ∧
        (runCalls (Part3.ControlTask exampleCommon3) exampleTimes (Part3.CONTROLInitialize 0)).1.ledstate =
          ((firings (Part3.ControlTask exampleCommon3) (fun now s => s.LEDTimer.isExpired now) exampleTimes
            (Part3.CONTROLInitialize 0) % 2 : Nat) : Int) ∧
        payloadsOf exampleCommon3.MSG_ID_CHANGE_LED
            (runCalls (Part3.ControlTask exampleCommon3) exampleTimes (Part3.CONTROLInitialize 0)).2 =
          (List.range (firings (Part3.ControlTask exampleCommon3) (fun now s => s.LEDTimer.isExpired now) exampleTimes
            (Part3.CONTROLInitialize 0))).map (fun j => (j + 1) % 2)) ∧
      ((∀ (now : Nat) (s : Part4.ControlState),
          (s.LEDTimer.isExpired now = true →
            (Part4.ControlTask exampleCommon4 now s).1.ledstate = (if s.ledstate = 1 then 0 else 1) ∧
            payloadsOf exampleCommon4.MSG_ID_CHANGE_LED (Part4.ControlTask exampleCommon4 now s).2
              = [ptrOfInt (if s.ledstate = 1 then 0 else 1)] ∧
            (Part4.ControlTask exampleCommon4 now s).1.LEDTimer = s.LEDTimer.Set now 750) ∧
          (s.LEDTimer.isExpired now = false →
            (Part4.ControlTask exampleCommon4 now s).1.ledstate = s.ledstate ∧
            payloadsOf exampleCommon4.MSG_ID_CHANGE_LED (Part4.ControlTask exampleCommon4 now s).2 = [] ∧
            (Part4.ControlTask exampleCommon4 now s).1.LEDTimer = s.LEDTimer)) ∧
        ((runCalls (Part4.ControlTask exampleCommon4) exampleTimes (Part4.CONTROLInitialize exampleCommon4 0)).1.ledstate = 0 ∨
          (runCalls (Part4.ControlTask exampleCommon4) exampleTimes (Part4.CONTROLInitialize exampleCommon4 0)).1.ledstate = 1) ∧
        (runCalls (Part4.ControlTask exampleCommon4) exampleTimes (Part4.CONTROLInitialize exampleCommon4 0)).1.ledstate =
          ((firings (Part4.ControlTask exampleCommon4) (fun now s => s.LEDTimer.isExpired now) exampleTimes
            (Part4.CONTROLInitialize exampleCommon4 0) % 2 : Nat) : Int) ∧
        payloadsOf exampleCommon4.MSG_ID_CHANGE_LED
            (runCalls (Part4.ControlTask exampleCommon4) exampleTimes (Part4.CONTROLInitialize exampleCommon4 0)).2 =
          (List.range (firings (Part4.ControlTask exampleCommon4) (fun now s => s.LEDTimer.isExpired now) exampleTimes
            (Part4.CONTROLInitialize exampleCommon4 0))).map (fun j => (j + 1) % 2))) ∧
    (firings Part1.ControlTask (fun now s => s.LEDTimer.isExpired now) exampleTimes
        (Part1.CONTROLInitialize 0) = 3 ∧
      payloadsOf Part1.MSG_ID_CHANGE_LED
        (runCalls Part1.ControlTask exampleTimes (Part1.CONTROLInitialize 0)).2 = [1, 0, 1] ∧
      firings (Part3.ControlTask exampleCommon3) (fun now s => s.LEDTimer.isExpired now)
        exampleTimes (Part3.CONTROLInitialize 0) = 3 ∧
      payloadsOf exampleCommon3.MSG_ID_CHANGE_LED
        (runCalls (Part3.ControlTask exampleCommon3) exampleTimes
          (Part3.CONTROLInitialize 0)).2 = [1, 0, 1] ∧
      firings (Part4.ControlTask exampleCommon4) (fun now s => s.LEDTimer.isExpired now)
        exampleTimes (Part4.CONTROLInitialize exampleCommon4 0) = 3 ∧
      payloadsOf exampleCommon4.MSG_ID_CHANGE_LED
        (runCalls (Part4.ControlTask exampleCommon4) exampleTimes
          (Part4.CONTROLInitialize exampleCommon4 0)).2 = [1, 0, 1]) :=
  ⟨by decide,
    led_messages_alternate exampleCommon3 exampleCommon4 (by decide) (by decide) 0 exampleTimes,
    by decide⟩

theorem part1_seg_step (now : Nat) (s : Part1.ControlState) :
    (s.SevenSegTimer.isExpired now = true →
        payloadsOf Part1.MSG_ID_CHANGE_7SEG (Part1.ControlTask now s).2 = [s.v] ∧
        (Part1.ControlTask now s).1.v
          = (if toUnsigned (s.v + 1) > 0x1b then 0 else toUnsigned (s.v + 1)) ∧
        (Part1.ControlTask now s).1.SevenSegTimer = s.SevenSegTimer.Set now 300) ∧
      (s.SevenSegTimer.isExpired now = false →
        payloadsOf Part1.MSG_ID_CHANGE_7SEG (Part1.ControlTask now s).2 = [] ∧
        (Part1.ControlTask now s).1.v = s.v ∧
        (Part1.ControlTask now s).1.SevenSegTimer = s.SevenSegTimer) := by
  unfold Part1.ControlTask
  by_cases h1 : s.LEDTimer.isExpired now = true <;>
    by_cases h2 : s.SevenSegTimer.isExpired now = true <;>
    simp [h1, h2, payloadsOf, taskPost, Part1.MSG_ID_CHANGE_LED, Part1.MSG_ID_CHANGE_7SEG]

theorem seg_iterate (j : Nat) :
    (fun x : Nat => if toUnsigned (x + 1) > 0x1b then 0 else toUnsigned (x + 1))^[j] 0
      = j % 28 := by
  induction j with
  | zero => rfl
  | succ n ih =>
    rw [Function.iterate_succ_apply', ih]
    simp only [toUnsigned]
    split <;> omega


/-- C15: the seven-segment test sequence of ControlTask (part 1).  In every
state, a call that finds the seven-segment timer expired posts exactly one
MSG_ID_CHANGE_7SEG message, whose payload is the counter v, then increments v
(to 0 if the incremented value exceeds 0x1b) and re-arms the timer for
300 ms; a call that finds it not expired posts no MSG_ID_CHANGE_7SEG message
and leaves v and the timer alone.  Hence, after any sequence of calls that
follows CONTROLInitialize, made at any times, with n the number of those
calls that found the seven-segment timer expired: exactly n
MSG_ID_CHANGE_7SEG messages have been posted, the one posted on the k-th
expiry (k = 0, ..., n - 1) carries payload k mod 28 (it starts at 0, goes up
by one without skipping a value and wraps to 0 after 0x1b); no posted value,
and no value of the counter v between calls, exceeds 0x1b, and v is
n mod 28. -/
theorem seven_segment_sequence (t0 : Nat) (ts : List Nat) :
    (∀ (now : Nat) (s : Part1.ControlState),
        (s.SevenSegTimer.isExpired now = true →
          payloadsOf Part1.MSG_ID_CHANGE_7SEG (Part1.ControlTask now s).2 = [s.v] ∧
          (Part1.ControlTask now s).1.v
            = (if toUnsigned (s.v + 1) > 0x1b then 0 else toUnsigned (s.v + 1)) ∧
          (Part1.ControlTask now s).1.SevenSegTimer = s.SevenSegTimer.Set now 300) ∧
        (s.SevenSegTimer.isExpired now = false →
          payloadsOf Part1.MSG_ID_CHANGE_7SEG (Part1.ControlTask now s).2 = [] ∧
          (Part1.ControlTask now s).1.v = s.v ∧
          (Part1.ControlTask now s).1.SevenSegTimer = s.SevenSegTimer)) ∧
      payloadsOf Part1.MSG_ID_CHANGE_7SEG
          (runCalls Part1.ControlTask ts (Part1.CONTROLInitialize t0)).2 =
        (List.range (firings Part1.ControlTask (fun now s => s.SevenSegTimer.isExpired now)
          ts (Part1.CONTROLInitialize t0))).map (fun k => k % 28) ∧
      (∀ p ∈ payloadsOf Part1.MSG_ID_CHANGE_7SEG
          (runCalls Part1.ControlTask ts (Part1.CONTROLInitialize t0)).2, p ≤ 0x1b) ∧
      (runCalls Part1.ControlTask ts (Part1.CONTROLInitialize t0)).1.v ≤ 0x1b ∧
      (runCalls Part1.ControlTask ts (Part1.CONTROLInitialize t0)).1.v =
        firings Part1.ControlTask (fun now s => s.SevenSegTimer.isExpired now)
          ts (Part1.CONTROLInitialize t0) % 28 := by
  obtain ⟨hobs, hcnt⟩ := runCalls_fired Part1.ControlTask
    (fun now s => s.SevenSegTimer.isExpired now)
    (payloadsOf Part1.MSG_ID_CHANGE_7SEG) (payloadsOf_append _)
    (fun s => s.v)
    (fun x : Nat => if toUnsigned (x + 1) > 0x1b then 0 else toUnsigned (x + 1))
    (fun x : Nat => x)
    (fun now s => ⟨fun h => ⟨((part1_seg_step now s).1 h).1, ((part1_seg_step now s).1 h).2.1⟩,
      fun h => ⟨((part1_seg_step now s).2 h).1, ((part1_seg_step now s).2 h).2.1⟩⟩)
    ts (Part1.CONTROLInitialize t0)
  have hv0 : (Part1.CONTROLInitialize t0).v = 0 := rfl
  simp only [hv0] at hobs hcnt
  have hobs2 : payloadsOf Part1.MSG_ID_CHANGE_7SEG
      (runCalls Part1.ControlTask ts (Part1.CONTROLInitialize t0)).2
        = (List.range (firings Part1.ControlTask (fun now s => s.SevenSegTimer.isExpired now)
          ts (Part1.CONTROLInitialize t0))).map (fun k => k % 28) := by
    rw [hobs]
    apply List.map_congr_left
    intro j _
    exact seg_iterate j
  refine ⟨part1_seg_step, hobs2, ?_, ?_, ?_⟩
  · intro p hp
    rw [hobs2, List.mem_map] at hp
    obtain ⟨k, _, rfl⟩ := hp
    omega
  · rw [hcnt, seg_iterate]; omega
  · rw [hcnt, seg_iterate]

theorem seven_segment_sequence_witness :
    (
      (∀ (now : Nat) (s : Part1.ControlState),
          (s.SevenSegTimer.isExpired now = true →
            payloadsOf Part1.MSG_ID_CHANGE_7SEG (Part1.ControlTask now s).2 = [s.v] ∧
            (Part1.ControlTask now s).1.v
              = (if toUnsigned (s.v + 1) > 0x1b then 0 else toUnsigned (s.v + 1)) ∧
            (Part1.ControlTask now s).1.SevenSegTimer = s.SevenSegTimer.Set now 300) ∧
          (s.SevenSegTimer.isExpired now = false →
            payloadsOf Part1.MSG_ID_CHANGE_7SEG (Part1.ControlTask now s).2 = [] ∧
            (Part1.ControlTask now s).1.v = s.v ∧
            (Part1.ControlTask now s).1.SevenSegTimer = s.SevenSegTimer)) ∧
        payloadsOf Part1.MSG_ID_CHANGE_7SEG
            (runCalls Part1.ControlTask segTimes (Part1.CONTROLInitialize 0)).2 =
          (List.range (firings Part1.ControlTask (fun now s => s.SevenSegTimer.isExpired now)
            segTimes (Part1.CONTROLInitialize 0))).map (fun k => k % 28) ∧
        (∀ p ∈ payloadsOf Part1.MSG_ID_CHANGE_7SEG
            (runCalls Part1.ControlTask segTimes (Part1.CONTROLInitialize 0)).2, p ≤ 0x1b) ∧
        (runCalls Part1.ControlTask segTimes (Part1.CONTROLInitialize 0)).1.v ≤ 0x1b ∧
        (runCalls Part1.ControlTask segTimes (Part1.CONTROLInitialize 0)).1.v =
          firings Part1.ControlTask (fun now s => s.SevenSegTimer.isExpired now)
            segTimes (Part1.CONTROLInitialize 0) % 28) ∧
    (firings Part1.ControlTask (fun now s => s.SevenSegTimer.isExpired now) segTimes
        (Part1.CONTROLInitialize 0) = 30 ∧
      payloadsOf Part1.MSG_ID_CHANGE_7SEG
        (runCalls Part1.ControlTask segTimes (Part1.CONTROLInitialize 0)).2 =
        [0, 1, 2, 3, 4, 5, 6, 7, 8, 9, 10, 11, 12, 13, 14, 15, 16, 17, 18, 19, 20, 21, 22,
         23, 24, 25, 26, 27, 0, 1] ∧
      (runCalls Part1.ControlTask segTimes (Part1.CONTROLInitialize 0)).1.v = 2 ∧
      firings Part1.ControlTask (fun now s => s.SevenSegTimer.isExpired now) exampleTimes
        (Part1.CONTROLInitialize 0) = 5 ∧
      payloadsOf Part1.MSG_ID_CHANGE_7SEG
        (runCalls Part1.ControlTask exampleTimes (Part1.CONTROLInitialize 0)).2 =
        [0, 1, 2, 3, 4]) :=
  ⟨seven_segment_sequence 0 segTimes,
    by decide⟩

theorem succ_mod_step (n m : Nat) (hm : 0 < m) :
    (n + 1) % m = if n % m + 1 = m then 0 else n % m + 1 := by
  have hdiv := Nat.div_add_mod n m
  have hlt := Nat.mod_lt n hm
  split
  · rename_i h
    have e : n + 1 = m * (n / m + 1) := by
      rw [Nat.mul_add, Nat.mul_one]
      omega
    rw [e]
    exact Nat.mul_mod_right _ _
  · rename_i h
    have e : n + 1 = m * (n / m) + (n % m + 1) := by omega
    rw [e, Nat.mul_add_mod]
    exact Nat.mod_eq_of_lt (by omega)

theorem rpm_iterate (M M1 : Nat) (h1 : M1 ≤ 65535) (h2 : M1 ≤ M)
    (h3 : M1 = M ∨ M1 = 65535) (j : Nat) :
    (fun x : Nat => if toUnsigned (x + 1) > M then 0 else toUnsigned (x + 1))^[j] 0
      = j % (M1 + 1) := by
  induction j with
  | zero => simp
  | succ n ih =>
    rw [Function.iterate_succ_apply', ih, succ_mod_step n (M1 + 1) (Nat.succ_pos _)]
    have hlt : n % (M1 + 1) < M1 + 1 := Nat.mod_lt n (Nat.succ_pos M1)
    generalize n % (M1 + 1) = r at hlt ⊢
    simp only [toUnsigned]
    split <;> split <;> omega

theorem rps_iterate (M : Int) (M1 : Nat) (h1 : M = (M1 : Int)) (h2 : M1 < 32767) (j : Nat) :
    (fun x : Int => if toInt (x + 1) > M then 0 else toInt (x + 1))^[j] 0
      = ((j % (M1 + 1) : Nat) : Int) := by
  induction j with
  | zero => simp
  | succ n ih =>
    rw [Function.iterate_succ_apply', ih, succ_mod_step n (M1 + 1) (Nat.succ_pos _)]
    have hlt : n % (M1 + 1) < M1 + 1 := Nat.mod_lt n (Nat.succ_pos M1)
    generalize n % (M1 + 1) = r at hlt ⊢
    simp only [toInt]
    split <;> split <;> omega


theorem part3_rpm_step (k : Part3.Common) (hk : k.MSG_ID_CHANGE_LED ≠ k.MSG_ID_NEW_ACTUAL_RPM)
    (now : Nat) (s : Part3.ControlState) :
    (s.TestRPMTimer.isExpired now = true →
        (Part3.ControlTask k now s).1.actualrpm
          = (if toUnsigned (s.actualrpm + 1) > k.RPM_MAX then 0
             else toUnsigned (s.actualrpm + 1)) ∧
        payloadsOf k.MSG_ID_NEW_ACTUAL_RPM (Part3.ControlTask k now s).2
          = [if toUnsigned (s.actualrpm + 1) > k.RPM_MAX then 0
             else toUnsigned (s.actualrpm + 1)] ∧
        (Part3.ControlTask k now s).1.TestRPMTimer = s.TestRPMTimer.Set now 1000) ∧
      (s.TestRPMTimer.isExpired now = false →
        (Part3.ControlTask k now s).1.actualrpm = s.actualrpm ∧
        payloadsOf k.MSG_ID_NEW_ACTUAL_RPM (Part3.ControlTask k now s).2 = [] ∧
        (Part3.ControlTask k now s).1.TestRPMTimer = s.TestRPMTimer) := by
  unfold Part3.ControlTask
  by_cases h1 : s.LEDTimer.isExpired now = true <;>
    by_cases h2 : s.TestRPMTimer.isExpired now = true <;>
    simp [h1, h2, payloadsOf, taskPost, hk]

theorem part4_rps_step (k : Part4.Common) (hk : k.MSG_ID_CHANGE_LED ≠ k.MSG_ID_NEW_ACTUAL_RPS)
    (now : Nat) (s : Part4.ControlState) :
    (s.TestRPSTimer.isExpired now = true →
        (Part4.ControlTask k now s).1.actualrps
          = (if toInt (s.actualrps + 1) > k.RPS_MAX then 0 else toInt (s.actualrps + 1)) ∧
        payloadsOf k.MSG_ID_NEW_ACTUAL_RPS (Part4.ControlTask k now s).2
          = [ptrOfInt (if toInt (s.actualrps + 1) > k.RPS_MAX then 0
             else toInt (s.actualrps + 1))] ∧
        (Part4.ControlTask k now s).1.TestRPSTimer = s.TestRPSTimer.Set now 1000) ∧
      (s.TestRPSTimer.isExpired now = false →
        (Part4.ControlTask k now s).1.actualrps = s.actualrps ∧
        payloadsOf k.MSG_ID_NEW_ACTUAL_RPS (Part4.ControlTask k now s).2 = [] ∧
        (Part4.ControlTask k now s).1.TestRPSTimer = s.TestRPSTimer) := by
  unfold Part4.ControlTask
  by_cases h1 : s.LEDTimer.isExpired now = true <;>
    by_cases h2 : s.TestRPSTimer.isExpired now = true <;>
    simp [h1, h2, payloadsOf, taskPost, hk]

theorem cycle_list_props (N m : Nat) :
    (∀ p ∈ (List.range m).map (fun j => (j + 1) % (N + 1)), p ≤ N) ∧
      (∀ j, ((List.range m).map (fun j => (j + 1) % (N + 1)))[j]? = some N →
        j + 1 < ((List.range m).map (fun j => (j + 1) % (N + 1))).length →
        ((List.range m).map (fun j => (j + 1) % (N + 1)))[j + 1]? = some 0) := by
  constructor
  · intro p hp
    rw [List.mem_map] at hp
    obtain ⟨j, _, rfl⟩ := hp
    have hb : (j + 1) % (N + 1) < N + 1 := Nat.mod_lt (j + 1) (Nat.succ_pos N)
    omega
  · intro j hj hlen
    simp only [List.length_map, List.length_range] at hlen
    have hj1 : j < m := by omega
    rw [List.getElem?_map, List.getElem?_range hj1] at hj
    simp only [Option.map_some', Option.some.injEq] at hj
    rw [List.getElem?_map, List.getElem?_range hlen]
    simp only [Option.map_some', Option.some.injEq]
    rw [succ_mod_step (j + 1) (N + 1) (Nat.succ_pos _), hj]
    simp


/-- C16 (amended): each time ControlTask finds the RPM (RPS) test timer
expired, and only then, it increments the actual value by 1 unless the result
is greater than RPM_MAX (RPS_MAX), in which case it becomes 0.  In every
state, a call that finds the test timer expired replaces the actual value a
by a + 1 (computed in the 16 bits of the counter), or by 0 if that exceeds
the bound, posts exactly one MSG_ID_NEW_ACTUAL_RPM (MSG_ID_NEW_ACTUAL_RPS)
message, whose payload is the new value, and re-arms the timer for 1000 ms; a
call that finds it not expired leaves the value and the timer alone and posts
no such message.  Hence, for every RPM_MAX ≥ 0 in part 3 (unsigned 16-bit
counter) and for every RPS_MAX with 0 ≤ RPS_MAX < 32767 in part 4 (16-bit int
counter), after any sequence of calls that follows CONTROLInitialize, with n
the number of those calls that found the test timer expired: exactly n
messages have been posted, the j-th of them (j = 1, ..., n) carries j modulo
MAX + 1 (modulo 65536 when RPM_MAX exceeds 65535), every payload lies in
0..MAX inclusive, the payload posted after MAX is 0, and the actual value is
n modulo MAX + 1. -/
theorem actual_value_cycles (k3 : Part3.Common) (k4 : Part4.Common) (M4 : Nat)
    (h3 : k3.MSG_ID_CHANGE_LED ≠ k3.MSG_ID_NEW_ACTUAL_RPM)
    (h4 : k4.MSG_ID_CHANGE_LED ≠ k4.MSG_ID_NEW_ACTUAL_RPS)
    (hM4 : k4.RPS_MAX = (M4 : Int)) (hlt : M4 < 32767)
    (t0 : Nat) (ts : List Nat) :
    ((∀ (now : Nat) (s : Part3.ControlState),
        (s.TestRPMTimer.isExpired now = true →
          (Part3.ControlTask k3 now s).1.actualrpm
            = (if toUnsigned (s.actualrpm + 1) > k3.RPM_MAX then 0
               else toUnsigned (s.actualrpm + 1)) ∧
          payloadsOf k3.MSG_ID_NEW_ACTUAL_RPM (Part3.ControlTask k3 now s).2
            = [if toUnsigned (s.actualrpm + 1) > k3.RPM_MAX then 0
               else toUnsigned (s.actualrpm + 1)] ∧
          (Part3.ControlTask k3 now s).1.TestRPMTimer = s.TestRPMTimer.Set now 1000) ∧
        (s.TestRPMTimer.isExpired now = false →
          (Part3.ControlTask k3 now s).1.actualrpm = s.actualrpm ∧
          payloadsOf k3.MSG_ID_NEW_ACTUAL_RPM (Part3.ControlTask k3 now s).2 = [] ∧
          (Part3.ControlTask k3 now s).1.TestRPMTimer = s.TestRPMTimer)) ∧
      payloadsOf k3.MSG_ID_NEW_ACTUAL_RPM
          (runCalls (Part3.ControlTask k3) ts (Part3.CONTROLInitialize t0)).2 =
        (List.range (firings (Part3.ControlTask k3)
          (fun now s => s.TestRPMTimer.isExpired now) ts (Part3.CONTROLInitialize t0))).map
          (fun j => (j + 1) % (min k3.RPM_MAX 65535 + 1)) ∧
      (runCalls (Part3.ControlTask k3) ts (Part3.CONTROLInitialize t0)).1.actualrpm =
        firings (Part3.ControlTask k3) (fun now s => s.TestRPMTimer.isExpired now) ts
          (Part3.CONTROLInitialize t0) % (min k3.RPM_MAX 65535 + 1) ∧
      (∀ p ∈ payloadsOf k3.MSG_ID_NEW_ACTUAL_RPM
          (runCalls (Part3.ControlTask k3) ts (Part3.CONTROLInitialize t0)).2,
        p ≤ k3.RPM_MAX) ∧
      (∀ j, (payloadsOf k3.MSG_ID_NEW_ACTUAL_RPM
          (runCalls (Part3.ControlTask k3) ts (Part3.CONTROLInitialize t0)).2)[j]?
            = some k3.RPM_MAX →
        j + 1 < (payloadsOf k3.MSG_ID_NEW_ACTUAL_RPM
          (runCalls (Part3.ControlTask k3) ts (Part3.CONTROLInitialize t0)).2).length →
        (payloadsOf k3.MSG_ID_NEW_ACTUAL_RPM
          (runCalls (Part3.ControlTask k3) ts (Part3.CONTROLInitialize t0)).2)[j + 1]?
            = some 0)) ∧
    ((∀ (now : Nat) (s : Part4.ControlState),
        (s.TestRPSTimer.isExpired now = true →
          (Part4.ControlTask k4 now s).1.actualrps
            = (if toInt (s.actualrps + 1) > k4.RPS_MAX then 0 else toInt (s.actualrps + 1)) ∧
          payloadsOf k4.MSG_ID_NEW_ACTUAL_RPS (Part4.ControlTask k4 now s).2
            = [ptrOfInt (if toInt (s.actualrps + 1) > k4.RPS_MAX then 0
               else toInt (s.actualrps + 1))] ∧
          (Part4.ControlTask k4 now s).1.TestRPSTimer = s.TestRPSTimer.Set now 1000) ∧
        (s.TestRPSTimer.isExpired now = false →
          (Part4.ControlTask k4 now s).1.actualrps = s.actualrps ∧
          payloadsOf k4.MSG_ID_NEW_ACTUAL_RPS (Part4.ControlTask k4 now s).2 = [] ∧
          (Part4.ControlTask k4 now s).1.TestRPSTimer = s.TestRPSTimer)) ∧
      payloadsOf k4.MSG_ID_NEW_ACTUAL_RPS
          (runCalls (Part4.ControlTask k4) ts (Part4.CONTROLInitialize k4 t0)).2 =
        (List.range (firings (Part4.ControlTask k4)
          (fun now s => s.TestRPSTimer.isExpired now) ts
          (Part4.CONTROLInitialize k4 t0))).map (fun j => (j + 1) % (M4 + 1)) ∧
      (runCalls (Part4.ControlTask k4) ts (Part4.CONTROLInitialize k4 t0)).1.actualrps =
        ((firings (Part4.ControlTask k4) (fun now s => s.TestRPSTimer.isExpired now) ts
          (Part4.CONTROLInitialize k4 t0) % (M4 + 1) : Nat) : Int) ∧
      (∀ p ∈ payloadsOf k4.MSG_ID_NEW_ACTUAL_RPS
          (runCalls (Part4.ControlTask k4) ts (Part4.CONTROLInitialize k4 t0)).2,
        (p : Int) ≤ k4.RPS_MAX) ∧
      (∀ j, (payloadsOf k4.MSG_ID_NEW_ACTUAL_RPS
          (runCalls (Part4.ControlTask k4) ts (Part4.CONTROLInitialize k4 t0)).2)[j]?
            = some M4 →
        j + 1 < (payloadsOf k4.MSG_ID_NEW_ACTUAL_RPS
          (runCalls (Part4.ControlTask k4) ts (Part4.CONTROLInitialize k4 t0)).2).length →
        (payloadsOf k4.MSG_ID_NEW_ACTUAL_RPS
          (runCalls (Part4.ControlTask k4) ts (Part4.CONTROLInitialize k4 t0)).2)[j + 1]?
            = some 0)) := by
  constructor
  · obtain ⟨hobs, hcnt⟩ := runCalls_fired (Part3.ControlTask k3)
      (fun now s => s.TestRPMTimer.isExpired now)
      (payloadsOf k3.MSG_ID_NEW_ACTUAL_RPM) (payloadsOf_append _)
      (fun s => s.actualrpm)
      (fun x : Nat => if toUnsigned (x + 1) > k3.RPM_MAX then 0 else toUnsigned (x + 1))
      (fun x : Nat => if toUnsigned (x + 1) > k3.RPM_MAX then 0 else toUnsigned (x + 1))
      (fun now s => ⟨fun h => ⟨((part3_rpm_step k3 h3 now s).1 h).2.1,
          ((part3_rpm_step k3 h3 now s).1 h).1⟩,
        fun h => ⟨((part3_rpm_step k3 h3 now s).2 h).2.1,
          ((part3_rpm_step k3 h3 now s).2 h).1⟩⟩)
      ts (Part3.CONTROLInitialize t0)
    have hv0 : (Part3.CONTROLInitialize t0).actualrpm = 0 := rfl
    simp only [hv0] at hobs hcnt
    have hmin1 : min k3.RPM_MAX 65535 ≤ 65535 := Nat.min_le_right _ _
    have hmin2 : min k3.RPM_MAX 65535 ≤ k3.RPM_MAX := Nat.min_le_left _ _
    have hmin3 : min k3.RPM_MAX 65535 = k3.RPM_MAX ∨ min k3.RPM_MAX 65535 = 65535 := by
      rcases Nat.le_total k3.RPM_MAX 65535 with h | h
      · left; exact Nat.min_eq_left h
      · right; exact Nat.min_eq_right h
    have hobs2 : payloadsOf k3.MSG_ID_NEW_ACTUAL_RPM
        (runCalls (Part3.ControlTask k3) ts (Part3.CONTROLInitialize t0)).2
          = (List.range (firings (Part3.ControlTask k3)
              (fun now s => s.TestRPMTimer.isExpired now) ts
              (Part3.CONTROLInitialize t0))).map
            (fun j => (j + 1) % (min k3.RPM_MAX 65535 + 1)) := by
      rw [hobs]
      apply List.map_congr_left
      intro j _
      have := rpm_iterate k3.RPM_MAX _ hmin1 hmin2 hmin3 (j + 1)
      rw [Function.iterate_succ_apply'] at this
      exact this
    obtain ⟨hp1, hp2⟩ := cycle_list_props (min k3.RPM_MAX 65535)
      (firings (Part3.ControlTask k3) (fun now s => s.TestRPMTimer.isExpired now) ts
        (Part3.CONTROLInitialize t0))
    refine ⟨part3_rpm_step k3 h3, hobs2, ?_, ?_, ?_⟩
    · rw [hcnt]
      exact rpm_iterate k3.RPM_MAX _ hmin1 hmin2 hmin3 _
    · intro p hp
      rw [hobs2] at hp
      exact Nat.le_trans (hp1 p hp) hmin2
    · rw [hobs2]
      intro j hj hlen
      have hmem := hp1 _ (List.getElem?_mem hj)
      have heq : min k3.RPM_MAX 65535 = k3.RPM_MAX := Nat.le_antisymm hmin2 hmem
      rw [heq] at hp2 hj hlen ⊢
      exact hp2 j hj hlen
  · obtain ⟨hobs, hcnt⟩ := runCalls_fired (Part4.ControlTask k4)
      (fun now s => s.TestRPSTimer.isExpired now)
      (payloadsOf k4.MSG_ID_NEW_ACTUAL_RPS) (payloadsOf_append _)
      (fun s => s.actualrps)
      (fun x : Int => if toInt (x + 1) > k4.RPS_MAX then 0 else toInt (x + 1))
      (fun x : Int => ptrOfInt (if toInt (x + 1) > k4.RPS_MAX then 0 else toInt (x + 1)))
      (fun now s => ⟨fun h => ⟨((part4_rps_step k4 h4 now s).1 h).2.1,
          ((part4_rps_step k4 h4 now s).1 h).1⟩,
        fun h => ⟨((part4_rps_step k4 h4 now s).2 h).2.1,
          ((part4_rps_step k4 h4 now s).2 h).1⟩⟩)
      ts (Part4.CONTROLInitialize k4 t0)
    have hv0 : (Part4.CONTROLInitialize k4 t0).actualrps = 0 := rfl
    simp only [hv0] at hobs hcnt
    have hobs2 : payloadsOf k4.MSG_ID_NEW_ACTUAL_RPS
        (runCalls (Part4.ControlTask k4) ts (Part4.CONTROLInitialize k4 t0)).2
          = (List.range (firings (Part4.ControlTask k4)
              (fun now s => s.TestRPSTimer.isExpired now) ts
              (Part4.CONTROLInitialize k4 t0))).map (fun j => (j + 1) % (M4 + 1)) := by
      rw [hobs]
      apply List.map_congr_left
      intro j _
      have := rps_iterate k4.RPS_MAX M4 hM4 hlt (j + 1)
      rw [Function.iterate_succ_apply'] at this
      rw [this]
      have hb : (j + 1) % (M4 + 1) < M4 + 1 := Nat.mod_lt (j + 1) (Nat.succ_pos M4)
      generalize (j + 1) % (M4 + 1) = r at hb ⊢
      unfold ptrOfInt
      omega
    obtain ⟨hp1, hp2⟩ := cycle_list_props M4
      (firings (Part4.ControlTask k4) (fun now s => s.TestRPSTimer.isExpired now) ts
        (Part4.CONTROLInitialize k4 t0))
    refine ⟨part4_rps_step k4 h4, hobs2, ?_, ?_, ?_⟩
    · rw [hcnt]
      exact rps_iterate k4.RPS_MAX M4 hM4 hlt _
    · intro p hp
      rw [hobs2] at hp
      have := hp1 p hp
      rw [hM4]
      exact Int.ofNat_le.mpr this
    · rw [hobs2]
      exact hp2

theorem part4_rps_expired_step (k : Part4.Common)
    (hk : k.MSG_ID_CHANGE_LED ≠ k.MSG_ID_NEW_ACTUAL_RPS)
    (now : Nat) (s : Part4.ControlState) (hexp : s.TestRPSTimer.deadline ≤ now) :
    payloadsOf k.MSG_ID_NEW_ACTUAL_RPS (Part4.ControlTask k now s).2
        = [ptrOfInt (if toInt (s.actualrps + 1) > k.RPS_MAX then 0
           else toInt (s.actualrps + 1))] ∧
      (Part4.ControlTask k now s).1.actualrps
        = (if toInt (s.actualrps + 1) > k.RPS_MAX then 0 else toInt (s.actualrps + 1)) ∧
      (Part4.ControlTask k now s).1.TestRPSTimer.deadline = now + 1000 := by
  have h2 : s.TestRPSTimer.isExpired now = true := by
    simp [OSTimer.isExpired, hexp]
  unfold Part4.ControlTask
  by_cases h1 : s.LEDTimer.isExpired now = true <;>
    simp [h1, h2, payloadsOf, taskPost, hk, OSTimer.Set]

theorem part4_rps_every_second (k : Part4.Common)
    (hk : k.MSG_ID_CHANGE_LED ≠ k.MSG_ID_NEW_ACTUAL_RPS) :
    ∀ (n : Nat) (s : Part4.ControlState) (t : Nat), s.TestRPSTimer.deadline ≤ t + 1000 →
      payloadsOf k.MSG_ID_NEW_ACTUAL_RPS
          (runCalls (Part4.ControlTask k)
            ((List.range n).map (fun i => t + 1000 * (i + 1))) s).2 =
        (List.range n).map (fun j => ptrOfInt
          ((fun x : Int => if toInt (x + 1) > k.RPS_MAX then 0 else toInt (x + 1))^[j + 1]
            s.actualrps)) := by
  intro n
  induction n with
  | zero => intro s t _; rfl
  | succ n ih =>
    intro s t hd
    obtain ⟨e1, e2, e3⟩ := part4_rps_expired_step k hk (t + 1000 * (0 + 1)) s (by omega)
    have hrest : (List.range n).map ((fun i => t + 1000 * (i + 1)) ∘ Nat.succ)
        = (List.range n).map (fun i => (t + 1000) + 1000 * (i + 1)) := by
      apply List.map_congr_left
      intro i _
      simp only [Function.comp_apply, Nat.succ_eq_add_one]
      omega
    have ih2 := ih (Part4.ControlTask k (t + 1000 * (0 + 1)) s).1 (t + 1000) (by omega)
    rw [e2] at ih2
    rw [List.range_succ_eq_map, List.map_cons, List.map_map, hrest]
    simp only [runCalls, payloadsOf_append, e1, ih2, List.singleton_append, List.map_cons,
      List.map_map]
    rfl

theorem rps_iterate_to_int_max :
    ∀ j : Nat, j ≤ 32767 →
      (fun x : Int => if toInt (x + 1) > wideCommon4.RPS_MAX then 0 else toInt (x + 1))^[j] 0
        = (j : Int) := by
  intro j
  induction j with
  | zero => intro _; rfl
  | succ n ih =>
    intro hn
    rw [Function.iterate_succ_apply', ih (by omega)]
    simp only [toInt, wideCommon4]
    split <;> omega

/-- C16, as the claim states it, fails in part 4 for RPS_MAX = 32767, the
largest `int` of the target: called once a second, ControlTask posts 32767
(= RPS_MAX) as its 32767th payload and then 32768, which is neither 0 nor a
value in 0..RPS_MAX, because `++actualrps` cannot exceed RPS_MAX. -/
theorem rps_payload_leaves_range_at_int_max :
    wideCommon4.RPS_MAX = 32767 ∧
      (payloadsOf wideCommon4.MSG_ID_NEW_ACTUAL_RPS
        (runCalls (Part4.ControlTask wideCommon4)
          ((List.range 32768).map (fun i => 1000 + 1000 * (i + 1)))
          (Part4.CONTROLInitialize wideCommon4 0)).2)[32766]? = some 32767 ∧
      (payloadsOf wideCommon4.MSG_ID_NEW_ACTUAL_RPS
        (runCalls (Part4.ControlTask wideCommon4)
          ((List.range 32768).map (fun i => 1000 + 1000 * (i + 1)))
          (Part4.CONTROLInitialize wideCommon4 0)).2)[32767]? = some 32768 := by
  have hrun := part4_rps_every_second wideCommon4 (by decide) 32768
    (Part4.CONTROLInitialize wideCommon4 0) 1000 (by decide)
  have h0 : (Part4.CONTROLInitialize wideCommon4 0).actualrps = 0 := rfl
  rw [h0] at hrun
  refine ⟨rfl, ?_, ?_⟩
  · rw [hrun, List.getElem?_map, List.getElem?_range (by decide)]
    simp only [Option.map_some', Option.some.injEq]
    rw [rps_iterate_to_int_max (32766 + 1) (by decide)]
    rfl
  · rw [hrun, List.getElem?_map, List.getElem?_range (by decide)]
    simp only [Option.map_some', Option.some.injEq]
    rw [Function.iterate_succ_apply', rps_iterate_to_int_max 32767 (by decide)]
    rfl


theorem actual_value_cycles_witness :
    (smallCommon3.MSG_ID_CHANGE_LED ≠ smallCommon3.MSG_ID_NEW_ACTUAL_RPM ∧
      smallCommon4.MSG_ID_CHANGE_LED ≠ smallCommon4.MSG_ID_NEW_ACTUAL_RPS ∧
      smallCommon4.RPS_MAX = ((2 : Nat) : Int) ∧ 2 < 32767) ∧
    (
      ((∀ (now : Nat) (s : Part3.ControlState),
          (s.TestRPMTimer.isExpired now = true →
            (Part3.ControlTask smallCommon3 now s).1.actualrpm
              = (if toUnsigned (s.actualrpm + 1) > smallCommon3.RPM_MAX then 0
                 else toUnsigned (s.actualrpm + 1)) ∧
            payloadsOf smallCommon3.MSG_ID_NEW_ACTUAL_RPM (Part3.ControlTask smallCommon3 now s).2
              = [if toUnsigned (s.actualrpm + 1) > smallCommon3.RPM_MAX then 0
                 else toUnsigned (s.actualrpm + 1)] ∧
            (Part3.ControlTask smallCommon3 now s).1.TestRPMTimer = s.TestRPMTimer.Set now 1000) ∧
          (s.TestRPMTimer.isExpired now = false →
            (Part3.ControlTask smallCommon3 now s).1.actualrpm = s.actualrpm ∧
            payloadsOf smallCommon3.MSG_ID_NEW_ACTUAL_RPM (Part3.ControlTask smallCommon3 now s).2 = [] ∧
            (Part3.ControlTask smallCommon3 now s).1.TestRPMTimer = s.TestRPMTimer)) ∧
        payloadsOf smallCommon3.MSG_ID_NEW_ACTUAL_RPM
            (runCalls (Part3.ControlTask smallCommon3) secondTimes (Part3.CONTROLInitialize 0)).2 =
          (List.range (firings (Part3.ControlTask smallCommon3)
            (fun now s => s.TestRPMTimer.isExpired now) secondTimes (Part3.CONTROLInitialize 0))).map
            (fun j => (j + 1) % (min smallCommon3.RPM_MAX 65535 + 1)) ∧
        (runCalls (Part3.ControlTask smallCommon3) secondTimes (Part3.CONTROLInitialize 0)).1.actualrpm =
          firings (Part3.ControlTask smallCommon3) (fun now s => s.TestRPMTimer.isExpired now) secondTimes
            (Part3.CONTROLInitialize 0) % (min smallCommon3.RPM_MAX 65535 + 1) ∧
        (∀ p ∈ payloadsOf smallCommon3.MSG_ID_NEW_ACTUAL_RPM
            (runCalls (Part3.ControlTask smallCommon3) secondTimes (Part3.CONTROLInitialize 0)).2,
          p ≤ smallCommon3.RPM_MAX) ∧
        (∀ j, (payloadsOf smallCommon3.MSG_ID_NEW_ACTUAL_RPM
            (runCalls (Part3.ControlTask smallCommon3) secondTimes (Part3.CONTROLInitialize 0)).2)[j]?
              = some smallCommon3.RPM_MAX →
          j + 1 < (payloadsOf smallCommon3.MSG_ID_NEW_ACTUAL_RPM
            (runCalls (Part3.ControlTask smallCommon3) secondTimes (Part3.CONTROLInitialize 0)).2).length →
          (payloadsOf smallCommon3.MSG_ID_NEW_ACTUAL_RPM
            (runCalls (Part3.ControlTask smallCommon3) secondTimes (Part3.CONTROLInitialize 0)).2)[j + 1]?
              = some 0)) ∧
      ((∀ (now : Nat) (s : Part4.ControlState),
          (s.TestRPSTimer.isExpired now = true →
            (Part4.ControlTask smallCommon4 now s).1.actualrps
              = (if toInt (s.actualrps + 1) > smallCommon4.RPS_MAX then 0 else toInt (s.actualrps + 1)) ∧
            payloadsOf smallCommon4.MSG_ID_NEW_ACTUAL_RPS (Part4.ControlTask smallCommon4 now s).2
              = [ptrOfInt (if toInt (s.actualrps + 1) > smallCommon4.RPS_MAX then 0
                 else toInt (s.actualrps + 1))] ∧
            (Part4.ControlTask smallCommon4 now s).1.TestRPSTimer = s.TestRPSTimer.Set now 1000) ∧
          (s.TestRPSTimer.isExpired now = false →
            (Part4.ControlTask smallCommon4 now s).1.actualrps = s.actualrps ∧
            payloadsOf smallCommon4.MSG_ID_NEW_ACTUAL_RPS (Part4.ControlTask smallCommon4 now s).2 = [] ∧
            (Part4.ControlTask smallCommon4 now s).1.TestRPSTimer = s.TestRPSTimer)) ∧
        payloadsOf smallCommon4.MSG_ID_NEW_ACTUAL_RPS
            (runCalls (Part4.ControlTask smallCommon4) secondTimes (Part4.CONTROLInitialize smallCommon4 0)).2 =
          (List.range (firings (Part4.ControlTask smallCommon4)
            (fun now s => s.TestRPSTimer.isExpired now) secondTimes
            (Part4.CONTROLInitialize smallCommon4 0))).map (fun j => (j + 1) % (2 + 1)) ∧
        (runCalls (Part4.ControlTask smallCommon4) secondTimes (Part4.CONTROLInitialize smallCommon4 0)).1.actualrps =
          ((firings (Part4.ControlTask smallCommon4) (fun now s => s.TestRPSTimer.isExpired now) secondTimes
            (Part4.CONTROLInitialize smallCommon4 0) % (2 + 1) : Nat) : Int) ∧
        (∀ p ∈ payloadsOf smallCommon4.MSG_ID_NEW_ACTUAL_RPS
            (runCalls (Part4.ControlTask smallCommon4) secondTimes (Part4.CONTROLInitialize smallCommon4 0)).2,
          (p : Int) ≤ smallCommon4.RPS_MAX) ∧
        (∀ j, (payloadsOf smallCommon4.MSG_ID_NEW_ACTUAL_RPS
            (runCalls (Part4.ControlTask smallCommon4) secondTimes (Part4.CONTROLInitialize smallCommon4 0)).2)[j]?
              = some 2 →
          j + 1 < (payloadsOf smallCommon4.MSG_ID_NEW_ACTUAL_RPS
            (runCalls (Part4.ControlTask smallCommon4) secondTimes (Part4.CONTROLInitialize smallCommon4 0)).2).length →
          (payloadsOf smallCommon4.MSG_ID_NEW_ACTUAL_RPS
            (runCalls (Part4.ControlTask smallCommon4) secondTimes (Part4.CONTROLInitialize smallCommon4 0)).2)[j + 1]?
              = some 0))) ∧
    (firings (Part3.ControlTask smallCommon3) (fun now s => s.TestRPMTimer.isExpired now)
        secondTimes (Part3.CONTROLInitialize 0) = 5 ∧
      payloadsOf smallCommon3.MSG_ID_NEW_ACTUAL_RPM
        (runCalls (Part3.ControlTask smallCommon3) secondTimes
          (Part3.CONTROLInitialize 0)).2 = [1, 2, 0, 1, 2] ∧
      (runCalls (Part3.ControlTask smallCommon3) secondTimes
        (Part3.CONTROLInitialize 0)).1.actualrpm = 2 ∧
      firings (Part4.ControlTask smallCommon4) (fun now s => s.TestRPSTimer.isExpired now)
        secondTimes (Part4.CONTROLInitialize smallCommon4 0) = 5 ∧
      payloadsOf smallCommon4.MSG_ID_NEW_ACTUAL_RPS
        (runCalls (Part4.ControlTask smallCommon4) secondTimes
          (Part4.CONTROLInitialize smallCommon4 0)).2 = [1, 2, 0, 1, 2] ∧
      (runCalls (Part4.ControlTask smallCommon4) secondTimes
        (Part4.CONTROLInitialize smallCommon4 0)).1.actualrps = 2) :=
  ⟨by decide,
    actual_value_cycles smallCommon3 smallCommon4 2 (by decide) (by decide) rfl (by decide) 0 secondTimes,
    by decide⟩

theorem ptrOfInt_toInt (p : Nat) (hp : p < 65536) :
    ptrOfInt (toInt (toUnsigned p)) = p ∧
      (p < 32768 → toInt (toUnsigned p) = (p : Int)) := by
  unfold ptrOfInt toInt toUnsigned
  refine ⟨?_, ?_⟩
  · omega
  · intro _; omega

/-- C17: for every payload p received on the keypad-RPM (keypad-RPS) message,
CTRLNewRPM (part 3) and CTRLNewRPS (part 4) store p as the demand value and
post exactly one MSG_ID_NEW_DEMAND_RPM (MSG_ID_NEW_DEMAND_RPS) message, whose
payload equals p, with owner tag MQ_OWNER_CALLER and context tag
MQ_CONTEXT_TASK; nothing else of the module's state changes.  The payload is
a value entered at the keypad and already validated by the display module, a
decimal number of at most four digits; the statement is proved for every p
below 32768, the values the `int` demand variable of the target holds. -/
theorem new_demand_is_stored_and_posted (k3 : Part3.Common) (k4 : Part4.Common)
    (s3 : Part3.ControlState) (s4 : Part4.ControlState) (p : Nat) (hp : p < 32768) :
    ((Part3.CTRLNewRPM k3 p s3).2 =
        [{ messageId := k3.MSG_ID_NEW_DEMAND_RPM, payload := p, owner := MQOwner.caller,
           context := MQContext.task }] ∧
      (Part3.CTRLNewRPM k3 p s3).1.demandrpm = (p : Int) ∧
      (Part3.CTRLNewRPM k3 p s3).1 = { s3 with demandrpm := (p : Int) }) ∧
    ((Part4.CTRLNewRPS k4 p s4).2 =
        [{ messageId := k4.MSG_ID_NEW_DEMAND_RPS, payload := p, owner := MQOwner.caller,
           context := MQContext.task }] ∧
      (Part4.CTRLNewRPS k4 p s4).1.demandrps = (p : Int) ∧
      (Part4.CTRLNewRPS k4 p s4).1 = { s4 with demandrps := (p : Int) }) := by
  obtain ⟨h1, h2⟩ := ptrOfInt_toInt p (by omega)
  have h3 := h2 hp
  refine ⟨⟨?_, ?_, ?_⟩, ⟨?_, ?_, ?_⟩⟩
  · simp only [Part3.CTRLNewRPM, taskPost, h1]
  · simp only [Part3.CTRLNewRPM, h3]
  · simp only [Part3.CTRLNewRPM, h3]
  · simp only [Part4.CTRLNewRPS, taskPost, h1]
  · simp only [Part4.CTRLNewRPS, h3]
  · simp only [Part4.CTRLNewRPS, h3]

theorem new_demand_is_stored_and_posted_witness :
    (9999 : Nat) < 32768 ∧
    ((Part3.CTRLNewRPM exampleCommon3 9999 (Part3.CONTROLInitialize 0)).2 =
        [{ messageId := exampleCommon3.MSG_ID_NEW_DEMAND_RPM, payload := 9999,
           owner := MQOwner.caller, context := MQContext.task }] ∧
      (Part3.CTRLNewRPM exampleCommon3 9999 (Part3.CONTROLInitialize 0)).1.demandrpm
        = (9999 : Int) ∧
      (Part3.CTRLNewRPM exampleCommon3 9999 (Part3.CONTROLInitialize 0)).1 =
        { (Part3.CONTROLInitialize 0) with demandrpm := (9999 : Int) }) ∧
    ((Part4.CTRLNewRPS exampleCommon4 9999 (Part4.CONTROLInitialize exampleCommon4 0)).2 =
        [{ messageId := exampleCommon4.MSG_ID_NEW_DEMAND_RPS, payload := 9999,
           owner := MQOwner.caller, context := MQContext.task }] ∧
      (Part4.CTRLNewRPS exampleCommon4 9999
        (Part4.CONTROLInitialize exampleCommon4 0)).1.demandrps = (9999 : Int) ∧
      (Part4.CTRLNewRPS exampleCommon4 9999 (Part4.CONTROLInitialize exampleCommon4 0)).1 =
        { (Part4.CONTROLInitialize exampleCommon4 0) with demandrps := (9999 : Int) }) :=
  ⟨by decide,
    new_demand_is_stored_and_posted exampleCommon3 exampleCommon4 (Part3.CONTROLInitialize 0)
      (Part4.CONTROLInitialize exampleCommon4 0) 9999 (by decide)⟩

/-! ## The display module -/

/-- C18: DISPUpdateRPM does not keep to DISPSTATE_IDLE.  In the state the
module starts in, DISPSTATE_REFSH, a message with RPM value 5 changes the
stored ActualRPM from 0 to 5 and writes "005" to the display at (12,1), while
the claim, and the comment above the function, allow this in DISPSTATE_IDLE
only. -/
theorem update_rpm_acts_in_refresh_state :
    (DISPInitialize Display.initial).state = DISPSTATE.DISPSTATE_REFSH ∧
      (DISPInitialize Display.initial).ActualRPM = 0 ∧
      DISPUpdateRPM (DISPInitialize Display.initial) 5 =
        some { (DISPInitialize Display.initial) with
          ActualRPM := 5,
          lcd := (DISPInitialize Display.initial).lcd ++
            [LcdOp.setCursor 12 1, LcdOp.print [0x30, 0x30, 0x35]] } := by
  refine ⟨rfl, rfl, ?_⟩
  rfl

theorem format3d_fits (n : Nat) (hn : n < 10000) :
    (format3d (toInt (n : Int))).length + 1 ≤ 5 := by
  have h1 : toInt (n : Int) = (n : Int) := by
    unfold toInt
    omega
  rw [h1]
  unfold format3d
  have h2 : ¬ ((n : Int) < 0) := by omega
  simp only [Int.natAbs_ofNat, h2, if_false, asciiDigits]
  split_ifs <;> simp <;> omega

/-- C19: when the display state is DISPSTATE_IDLE or DISPSTATE_REFSH (and
sprintf stays within numarr, as it does for a demand RPM below 10000),
DISPKeyPressed returns, and it moves to DISPSTATE_UPDATING exactly when the
key value is a numeral (keyval < 0x0a); in that case numarr[0] becomes the
ASCII digit 0x30 + keyval and curpos becomes 10; for every key value ≥ 0x0a
the whole module state, so the state, numarr and curpos, is left unchanged. -/
theorem key_press_starts_update (d : Display) (context : Nat)
    (hst : d.state = DISPSTATE.DISPSTATE_IDLE ∨ d.state = DISPSTATE.DISPSTATE_REFSH)
    (hlen : d.numarr.length = 5) (hd : d.DemandRPM < 10000) :
    ∃ d1, DISPKeyPressed d context = some d1 ∧
      (d1.state = DISPSTATE.DISPSTATE_UPDATING ↔ context % 256 < 0x0a) ∧
      (context % 256 < 0x0a →
        d1.numarr[0]? = some (0x30 + context % 256) ∧ d1.curpos = 10 ∧
        d1.numarr.length = 5) ∧
      (0x0a ≤ context % 256 →
        d1 = d ∧ d1.state = d.state ∧ d1.numarr = d.numarr ∧ d1.curpos = d.curpos) := by
  have hfit := format3d_fits d.DemandRPM hd
  have hs : ∃ buf, sprintfInto d.numarr (format3d (toInt (d.DemandRPM : Int))) = some buf ∧
      buf.length = 5 := by
    unfold sprintfInto
    rw [if_pos (by rw [hlen]; exact hfit)]
    refine ⟨_, rfl, ?_⟩
    simp only [List.length_append, List.length_drop, List.length_singleton, hlen]
    omega
  obtain ⟨buf, hbuf, hbl⟩ := hs
  have hne : d.state ≠ DISPSTATE.DISPSTATE_UPDATING := by
    rcases hst with h | h <;> rw [h] <;> decide
  by_cases hk : context % 256 < 0x0a
  · have hres : DISPKeyPressed d context =
        some { d with
          curpos := 10,
          numarr := buf.set 0 (0x30 + context % 256),
          lcd := d.lcd ++ [LcdOp.clear, LcdOp.setCursor 0 0, LcdOp.printF "New RPM:",
            LcdOp.setCursor 9 0, LcdOp.print (cString (buf.set 0 (0x30 + context % 256))),
            LcdOp.setCursor 10 0, LcdOp.blink],
          state := DISPSTATE.DISPSTATE_UPDATING } := by
      unfold DISPKeyPressed
      rcases hst with h | h <;> simp only [h, hk, if_true, hbuf]
    refine ⟨_, hres, ⟨fun _ => hk, fun _ => rfl⟩, ?_, ?_⟩
    · intro _
      refine ⟨?_, rfl, ?_⟩
      · exact List.getElem?_set_self (by rw [hbl]; decide)
      · simp only [List.length_set, hbl]
    · intro h
      omega
  · have hres : DISPKeyPressed d context = some d := by
      unfold DISPKeyPressed
      rcases hst with h | h <;> simp only [h, hk, if_false]
    refine ⟨d, hres, ⟨fun h => absurd h hne, fun h => absurd h hk⟩, ?_, ?_⟩
    · intro h
      exact absurd h hk
    · intro _
      exact ⟨rfl, rfl, rfl, rfl⟩

theorem key_press_starts_update_witness :
    ∃ d1, DISPKeyPressed (DISPInitialize Display.initial) 7 = some d1 ∧
      (d1.state = DISPSTATE.DISPSTATE_UPDATING ↔ 7 % 256 < 0x0a) ∧
      (7 % 256 < 0x0a →
        d1.numarr[0]? = some (0x30 + 7 % 256) ∧ d1.curpos = 10 ∧
        d1.numarr.length = 5) ∧
      (0x0a ≤ 7 % 256 →
        d1 = DISPInitialize Display.initial ∧
        d1.state = (DISPInitialize Display.initial).state ∧
        d1.numarr = (DISPInitialize Display.initial).numarr ∧
        d1.curpos = (DISPInitialize Display.initial).curpos) :=
  key_press_starts_update (DISPInitialize Display.initial) 7 (Or.inr rfl) rfl (by decide)

end Kernel
